import Mathlib

/-!
# Verification of the gobot i2c driver fork

A shallow embedding of the PCF8583 (clock/calendar/event-counter chip),
PCF8591 (ADC/DAC), PCA9501 and PCA953x (GPIO expander) drivers and of the
MCP2221 adaptor, together with proofs about their register-level behaviour.

The I2C connection is modelled as a bundle of response functions which may
depend on the history of events so far (so a device can answer two
successive reads differently, as real auto-increment hardware does).  Every
driver operation returns, besides its Go result, the exact list of events it
produced: mutex lock/unlock and bus requests with their full payloads.
Machine bytes are `Nat` with explicit `% 256` wherever the Go code converts
to `uint8`; Go `int32` arithmetic is `Int` with truncating division
(`Int.tdiv` / `Int.tmod`), which agrees with Go's `/` and `%`.
-/

namespace Gobot

set_option maxRecDepth 8000

/-! ## Bus model -/

/-- A single I2C request, with its full payload, as issued by a driver. -/
inductive Req where
  | readByteData (reg : Nat)
  | writeByteData (reg val : Nat)
  | writeBytes (data : List Nat)
  | readBytes (n : Nat)
  | writeByte (val : Nat)
  | readByte
deriving DecidableEq

/-- An observable event of a driver operation: taking or releasing the
driver mutex, or a bus request. -/
inductive Event where
  | lock
  | unlock
  | bus (r : Req)
deriving DecidableEq

/-- The environment: how the device answers each kind of request, given the
history of events produced so far.  Errors are abstract codes (`Nat`). -/
structure Bus where
  readByteData : List Event → Nat → Except Nat Nat
  writeByteData : List Event → Nat → Nat → Except Nat Unit
  writeBytes : List Event → List Nat → Except Nat Nat
  readBytes : List Event → Nat → Except Nat (List Nat)
  writeByte : List Event → Nat → Except Nat Unit
  readByte : List Event → Except Nat Nat

/-- Go's conversion of a signed integer to `uint8` (two's complement
truncation). -/
def goUInt8 (i : Int) : Nat := (i % 256).toNat

/-- Go's wrap-around of 64-bit signed integer arithmetic (`int` is 64 bits
wide on the platforms gobot targets): reduce into `[-2^63, 2^63)` by two's
complement. -/
def goInt64 (i : Int) : Int := (i + 2 ^ 63) % 2 ^ 64 - 2 ^ 63

/-! ## PCF8583 driver (clock / calendar / event counter)

Embedded from `pcf8583_driver.go`. -/

/-- Register address of the control/status register (`pcf8583_CTRL`). -/
def pcf8583CTRL : Nat := 0x00

/-- Go `PCF8583ModeClock50` control bit. -/
def pcf8583ModeClock50 : Nat := 0x10

/-- Go `PCF8583ModeCounter` control bit. -/
def pcf8583ModeCounter : Nat := 0x20

/-- Go `pcf8583StopCounting` control bit. -/
def pcf8583StopCounting : Nat := 0x80

/-- Default RAM offset (`pcf8583RamOffset`). -/
def pcf8583RamOffset : Nat := 0x10

/-- Go `pcf8583encodeBcd`: decimal 12 => 0x12, values above 99 are limited
to 99 (the Go code additionally logs in that case). -/
def pcf8583encodeBcd (val : Nat) : Nat :=
  let v := if val > 99 then 99 else val
  (v / 10) <<< 4 ||| (v % 10)

/-- Go `pcf8583decodeBcd`: 0x12 => decimal 12, each nibble above 9 is limited
to 9 (the Go code additionally logs in that case). -/
def pcf8583decodeBcd (bcd : Nat) : Nat :=
  let hi := bcd >>> 4
  let lo := bcd &&& 0x0f
  let hi' := if hi > 9 then 9 else hi
  let lo' := if lo > 9 then 9 else lo
  10 * hi' + lo'

/-- Go `PCF8583Control.isClockMode`: the counter-mode bit is not set. -/
def pcf8583IsClockMode (c : Nat) : Bool :=
  c &&& pcf8583ModeCounter == 0

/-- Go `PCF8583Control.isCounterMode`: counter bit set and 50Hz bit clear. -/
def pcf8583IsCounterMode (c : Nat) : Bool :=
  decide (c &&& pcf8583ModeCounter > 0) && (c &&& pcf8583ModeClock50 == 0)

/-- Errors of the PCF8583 driver, one constructor per distinct
`fmt.Errorf` / propagated-error case of the Go code. -/
inductive PCF8583Err where
  | busError (e : Nat)
  | wrongMode (ctrl : Nat)
  | shortWrite (written expected : Nat)
  | shortRead (readCount expected : Nat)
  | ramOverflow (addr : Nat)
deriving DecidableEq

/-- The mutable fields of `PCF8583Driver` used by the embedded operations. -/
structure PCF8583State where
  yearOffset : Int
  ramOffset : Nat
deriving DecidableEq

/-- The fields of a Go `time.Time` value as the driver reads them through
the stdlib accessors (`Date`, `Second`, `Weekday`, ...). -/
structure GoTime where
  year : Int
  month : Nat
  day : Nat
  hour : Nat
  minute : Nat
  second : Nat
  nanosecond : Nat
  weekday : Nat
deriving DecidableEq

/-- The 8-byte block `WriteTime` sends: control register address, control
value with the stop-counting bit set, then the six clock registers. -/
def pcf8583TimePayload (ctrlRegVal : Nat) (val : GoTime) : List Nat :=
  [pcf8583CTRL, ctrlRegVal ||| pcf8583StopCounting,
    pcf8583encodeBcd (val.nanosecond / 1000000 / 10 % 256),
    pcf8583encodeBcd (val.second % 256),
    pcf8583encodeBcd (val.minute % 256),
    pcf8583encodeBcd (val.hour % 256),
    pcf8583encodeBcd (val.day % 256),
    ((val.weekday % 256) <<< 5) % 256 ||| pcf8583encodeBcd (val.month % 256)]

/-- The 5-byte block `WriteCounter` sends: control register address, control
value with the stop-counting bit set, then three BCD counter bytes. -/
def pcf8583CounterPayload (ctrlRegVal : Nat) (val : Int) : List Nat :=
  [pcf8583CTRL, ctrlRegVal ||| pcf8583StopCounting,
    pcf8583encodeBcd (goUInt8 (val.tmod 100)),
    pcf8583encodeBcd (goUInt8 ((val.tdiv 100).tmod 100)),
    pcf8583encodeBcd (goUInt8 ((val.tdiv 10000).tmod 100))]

/-- Go `PCF8583Driver.WriteTime`: lock the mutex, read the control register,
refuse when not in a clock mode, otherwise write the eight clock bytes
(auto increment), record the year offset and restart counting via the
`run` helper; the deferred unlock closes every path. -/
def PCF8583Driver.WriteTime (bus : Bus) (st : PCF8583State) (val : GoTime) :
    Except PCF8583Err Unit × PCF8583State × List Event :=
  match bus.readByteData [.lock] pcf8583CTRL with
  | .error e => (.error (.busError e), st,
      [.lock, .bus (.readByteData pcf8583CTRL), .unlock])
  | .ok ctrlRegVal =>
    if pcf8583IsClockMode ctrlRegVal = false then
      (.error (.wrongMode ctrlRegVal), st,
        [.lock, .bus (.readByteData pcf8583CTRL), .unlock])
    else
      match bus.writeBytes [.lock, .bus (.readByteData pcf8583CTRL)]
          (pcf8583TimePayload ctrlRegVal val) with
      | .error e => (.error (.busError e), st,
          [.lock, .bus (.readByteData pcf8583CTRL),
            .bus (.writeBytes (pcf8583TimePayload ctrlRegVal val)), .unlock])
      | .ok written =>
        if written ≠ 8 then
          (.error (.shortWrite written 8), st,
            [.lock, .bus (.readByteData pcf8583CTRL),
              .bus (.writeBytes (pcf8583TimePayload ctrlRegVal val)), .unlock])
        else
          match bus.writeByteData
              [.lock, .bus (.readByteData pcf8583CTRL),
                .bus (.writeBytes (pcf8583TimePayload ctrlRegVal val))]
              pcf8583CTRL (ctrlRegVal &&& (255 ^^^ pcf8583StopCounting)) with
          | .error e => (.error (.busError e), { st with yearOffset := val.year },
              [.lock, .bus (.readByteData pcf8583CTRL),
                .bus (.writeBytes (pcf8583TimePayload ctrlRegVal val)),
                .bus (.writeByteData pcf8583CTRL
                  (ctrlRegVal &&& (255 ^^^ pcf8583StopCounting))), .unlock])
          | .ok _ => (.ok (), { st with yearOffset := val.year },
              [.lock, .bus (.readByteData pcf8583CTRL),
                .bus (.writeBytes (pcf8583TimePayload ctrlRegVal val)),
                .bus (.writeByteData pcf8583CTRL
                  (ctrlRegVal &&& (255 ^^^ pcf8583StopCounting))), .unlock])

/-- The clock value `ReadTime` assembles from the six clock registers,
before Go's `time.Date` normalisation (stdlib, outside this code):
(year, month, date, hours, minutes, seconds, nanoseconds). -/
def pcf8583DecodedTime (st : PCF8583State) (data : List Nat) :
    Int × Nat × Nat × Nat × Nat × Nat × Nat :=
  ((data.getD 4 0 >>> 6 : Nat) + st.yearOffset,
    pcf8583decodeBcd (data.getD 5 0 &&& 0x1f),
    pcf8583decodeBcd (data.getD 4 0 &&& 0x3f),
    pcf8583decodeBcd (data.getD 3 0),
    pcf8583decodeBcd (data.getD 2 0),
    pcf8583decodeBcd (data.getD 1 0),
    pcf8583decodeBcd (data.getD 0 0) * 1000000 * 10)

/-- Go `PCF8583Driver.ReadTime`: lock the mutex, read the control register,
refuse when not in a clock mode, otherwise read the six clock registers
with auto increment and decode them. -/
def PCF8583Driver.ReadTime (bus : Bus) (st : PCF8583State) :
    Except PCF8583Err (Int × Nat × Nat × Nat × Nat × Nat × Nat) × List Event :=
  match bus.readByteData [.lock] pcf8583CTRL with
  | .error e => (.error (.busError e),
      [.lock, .bus (.readByteData pcf8583CTRL), .unlock])
  | .ok ctrlRegVal =>
    if pcf8583IsClockMode ctrlRegVal = false then
      (.error (.wrongMode ctrlRegVal),
        [.lock, .bus (.readByteData pcf8583CTRL), .unlock])
    else
      match bus.readBytes [.lock, .bus (.readByteData pcf8583CTRL)] 6 with
      | .error e => (.error (.busError e),
          [.lock, .bus (.readByteData pcf8583CTRL), .bus (.readBytes 6), .unlock])
      | .ok data =>
        if data.length ≠ 6 then
          (.error (.shortRead data.length 6),
            [.lock, .bus (.readByteData pcf8583CTRL), .bus (.readBytes 6), .unlock])
        else
          (.ok (pcf8583DecodedTime st data),
            [.lock, .bus (.readByteData pcf8583CTRL), .bus (.readBytes 6), .unlock])

/-- Go `PCF8583Driver.WriteCounter`: lock the mutex, read the control register,
refuse when not in event-counter mode, otherwise write the three BCD
counter bytes and restart counting. -/
def PCF8583Driver.WriteCounter (bus : Bus) (st : PCF8583State) (val : Int) :
    Except PCF8583Err Unit × List Event :=
  match bus.readByteData [.lock] pcf8583CTRL with
  | .error e => (.error (.busError e),
      [.lock, .bus (.readByteData pcf8583CTRL), .unlock])
  | .ok ctrlRegVal =>
    if pcf8583IsCounterMode ctrlRegVal = false then
      (.error (.wrongMode ctrlRegVal),
        [.lock, .bus (.readByteData pcf8583CTRL), .unlock])
    else
      match bus.writeBytes [.lock, .bus (.readByteData pcf8583CTRL)]
          (pcf8583CounterPayload ctrlRegVal val) with
      | .error e => (.error (.busError e),
          [.lock, .bus (.readByteData pcf8583CTRL),
            .bus (.writeBytes (pcf8583CounterPayload ctrlRegVal val)), .unlock])
      | .ok written =>
        if written ≠ 5 then
          (.error (.shortWrite written 5),
            [.lock, .bus (.readByteData pcf8583CTRL),
              .bus (.writeBytes (pcf8583CounterPayload ctrlRegVal val)), .unlock])
        else
          match bus.writeByteData
              [.lock, .bus (.readByteData pcf8583CTRL),
                .bus (.writeBytes (pcf8583CounterPayload ctrlRegVal val))]
              pcf8583CTRL (ctrlRegVal &&& (255 ^^^ pcf8583StopCounting)) with
          | .error e => (.error (.busError e),
              [.lock, .bus (.readByteData pcf8583CTRL),
                .bus (.writeBytes (pcf8583CounterPayload ctrlRegVal val)),
                .bus (.writeByteData pcf8583CTRL
                  (ctrlRegVal &&& (255 ^^^ pcf8583StopCounting))), .unlock])
          | .ok _ => (.ok (),
              [.lock, .bus (.readByteData pcf8583CTRL),
                .bus (.writeBytes (pcf8583CounterPayload ctrlRegVal val)),
                .bus (.writeByteData pcf8583CTRL
                  (ctrlRegVal &&& (255 ^^^ pcf8583StopCounting))), .unlock])

/-- Go `PCF8583Driver.ReadCounter`: lock the mutex, read the control register,
refuse when not in event-counter mode, otherwise read the three counter
registers and assemble the decimal value. -/
def PCF8583Driver.ReadCounter (bus : Bus) (st : PCF8583State) :
    Except PCF8583Err Int × List Event :=
  match bus.readByteData [.lock] pcf8583CTRL with
  | .error e => (.error (.busError e),
      [.lock, .bus (.readByteData pcf8583CTRL), .unlock])
  | .ok ctrlRegVal =>
    if pcf8583IsCounterMode ctrlRegVal = false then
      (.error (.wrongMode ctrlRegVal),
        [.lock, .bus (.readByteData pcf8583CTRL), .unlock])
    else
      match bus.readBytes [.lock, .bus (.readByteData pcf8583CTRL)] 3 with
      | .error e => (.error (.busError e),
          [.lock, .bus (.readByteData pcf8583CTRL), .bus (.readBytes 3), .unlock])
      | .ok data =>
        if data.length ≠ 3 then
          (.error (.shortRead data.length 3),
            [.lock, .bus (.readByteData pcf8583CTRL), .bus (.readBytes 3), .unlock])
        else
          (.ok ((pcf8583decodeBcd (data.getD 0 0) : Int) +
              (pcf8583decodeBcd (data.getD 1 0) : Int) * 100 +
              (pcf8583decodeBcd (data.getD 2 0) : Int) * 10000),
            [.lock, .bus (.readByteData pcf8583CTRL), .bus (.readBytes 3), .unlock])

/-- Go `PCF8583Driver.WriteRAM`: range-check `address + ramOffset` against the
8-bit register space, then perform the single write transfer.  The Go
method takes `address` as `uint8` and does not touch the driver mutex. -/
def PCF8583Driver.WriteRAM (bus : Bus) (st : PCF8583State) (address val : Nat) :
    Except PCF8583Err Unit × List Event :=
  if address + st.ramOffset > 0xff then
    (.error (.ramOverflow (address + st.ramOffset)), [])
  else
    match bus.writeByteData [] ((address + st.ramOffset) % 256) val with
    | .error e => (.error (.busError e),
        [.bus (.writeByteData ((address + st.ramOffset) % 256) val)])
    | .ok _ => (.ok (),
        [.bus (.writeByteData ((address + st.ramOffset) % 256) val)])

/-- Go `PCF8583Driver.ReadRAM`: range-check `address + ramOffset`, then perform
the single read transfer.  No mutex interaction, as in the Go source. -/
def PCF8583Driver.ReadRAM (bus : Bus) (st : PCF8583State) (address : Nat) :
    Except PCF8583Err Nat × List Event :=
  if address + st.ramOffset > 0xff then
    (.error (.ramOverflow (address + st.ramOffset)), [])
  else
    match bus.readByteData [] ((address + st.ramOffset) % 256) with
    | .error e => (.error (.busError e),
        [.bus (.readByteData ((address + st.ramOffset) % 256))])
    | .ok v => (.ok v,
        [.bus (.readByteData ((address + st.ramOffset) % 256))])

/-! ## PCF8591 driver (4-channel ADC / 1-channel DAC)

Embedded from `pcf8591_driver.go`. -/

/-- Errors of the PCF8591 driver. -/
inductive PCF8591Err where
  | busError (e : Nat)
  | unknownDescription
  | shortRead (readCount expected : Nat)
deriving DecidableEq

/-- Go `pcf8591ModeChan`: a mode / channel combination. -/
structure Pcf8591ModeChan where
  mode : Nat
  channel : Nat
deriving DecidableEq

/-- Go `pcf8591_AION` auto-increment bit. -/
def pcf8591AION : Nat := 0x04

/-- Go `pcf8591_ALLSINGLE` mode. -/
def pcf8591ALLSINGLE : Nat := 0x00

/-- Go `pcf8591_THREEDIFF` mode. -/
def pcf8591THREEDIFF : Nat := 0x10

/-- Go `pcf8591_MIXED` mode. -/
def pcf8591MIXED : Nat := 0x20

/-- Go `pcf8591_TWODIFF` mode. -/
def pcf8591TWODIFF : Nat := 0x30

/-- Go `pcf8591_ANAON` analog-output-enable bit. -/
def pcf8591ANAON : Nat := 0x40

/-- Go `pcf8591_ADMASK`: channel and mode bits. -/
def pcf8591ADMASK : Nat := 0x33

/-- Go `pcf8591ModeMap`: the description strings accepted by `AnalogRead` and
the mode/channel each one denotes. -/
def pcf8591ModeMap (description : String) : Option Pcf8591ModeChan :=
  if description = "s.0" ∨ description = "0" then some ⟨pcf8591ALLSINGLE, 0⟩
  else if description = "s.1" ∨ description = "1" then some ⟨pcf8591ALLSINGLE, 1⟩
  else if description = "s.2" ∨ description = "2" then some ⟨pcf8591ALLSINGLE, 2⟩
  else if description = "s.3" ∨ description = "3" then some ⟨pcf8591ALLSINGLE, 3⟩
  else if description = "d.0-1" ∨ description = "0-1" then some ⟨pcf8591TWODIFF, 0⟩
  else if description = "d.2-3" then some ⟨pcf8591TWODIFF, 1⟩
  else if description = "m.0" then some ⟨pcf8591MIXED, 0⟩
  else if description = "m.1" then some ⟨pcf8591MIXED, 1⟩
  else if description = "m.2-3" then some ⟨pcf8591MIXED, 2⟩
  else if description = "t.0-3" ∨ description = "0-3" then some ⟨pcf8591THREEDIFF, 0⟩
  else if description = "t.1-3" ∨ description = "1-3" then some ⟨pcf8591THREEDIFF, 1⟩
  else if description = "t.2-3" then some ⟨pcf8591THREEDIFF, 2⟩
  else none

/-- Go `pcf8591IsDiff`: is this mode/channel combination a differential
measurement?  (Switch statement of the Go source.) -/
def Pcf8591ModeChan.pcf8591IsDiff (mc : Pcf8591ModeChan) : Bool :=
  if mc.mode = pcf8591TWODIFF then true
  else if mc.mode = pcf8591THREEDIFF then true
  else if mc.mode = pcf8591MIXED then mc.channel == 2
  else false

/-- Go `pcf8591Rescale`: clamp `input` into `[fromMin, fromMax]`, then map
it linearly.  Every arithmetic step — both subtractions, the
multiplication, the truncating division and the final addition — is Go
64-bit `int` arithmetic and therefore wraps (`goInt64`); the comparisons
of the clamping phase involve no arithmetic and cannot wrap. -/
def pcf8591Rescale (input fromMin fromMax toMin toMax : Int) : Int :=
  let i1 := if input < fromMin then fromMin else input
  let i2 := if i1 > fromMax then fromMax else i1
  goInt64 (goInt64 ((goInt64 (goInt64 (i2 - fromMin) * goInt64 (toMax - toMin))).tdiv
    (goInt64 (fromMax - fromMin))) + toMin)

/-- The default `rescaleAI` closure installed by `NewPCF8591Driver`,
parameterised by the per-channel `toMin` / `toMax` tables of the driver. -/
def pcf8591DefaultRescaleAI (toMin toMax : Nat → Int) (value : Nat)
    (mc : Pcf8591ModeChan) : Int :=
  let fromMin : Int := if mc.pcf8591IsDiff then -128 else 0
  let fromMax : Int := if mc.pcf8591IsDiff then 127 else 255
  let iVal : Int :=
    if mc.pcf8591IsDiff ∧ (value : Int) > 127 then (value : Int) - 256
    else (value : Int)
  pcf8591Rescale iVal fromMin fromMax (toMin mc.channel) (toMax mc.channel)

/-- The default `rescaleAO` closure installed by `NewPCF8591Driver`
(the driver defaults are `fromMin = 0`, `fromMax = 3300`), including the
Go `byte(...)` conversion applied to its result in the source. -/
def pcf8591DefaultRescaleAO (fromMin fromMax : Int) (milliVolt : Int) : Nat :=
  goUInt8 (pcf8591Rescale milliVolt fromMin fromMax 0 255)

/-- The mutable cache fields of `PCF8591Driver`. -/
structure PCF8591State where
  lastCtrlByte : Nat
  lastAnaOut : Nat
deriving DecidableEq

/-- Go `PCF8591Driver.writeCtrlByte`: send the control byte only when it
differs from the last one sent; otherwise skip the bus write (the Go code
merely logs the skip).  `tr` is the event history of the enclosing call. -/
def PCF8591Driver.writeCtrlByte (bus : Bus) (st : PCF8591State)
    (tr : List Event) (ctrlByte : Nat) :
    Except Nat Unit × PCF8591State × List Event :=
  if st.lastCtrlByte ≠ ctrlByte then
    match bus.writeByte tr ctrlByte with
    | .error e => (.error e, st, tr ++ [.bus (.writeByte ctrlByte)])
    | .ok _ => (.ok (), { st with lastCtrlByte := ctrlByte },
        tr ++ [.bus (.writeByte ctrlByte)])
  else
    (.ok (), st, tr)

/-- Go `PCF8591Driver.AnalogWrite`: rescale the value to a byte and write it
with the analog output enabled — unless the byte equals the last written
analog value, in which case the bus write is skipped entirely. -/
def PCF8591Driver.AnalogWrite (rescaleAO : Int → Nat) (bus : Bus)
    (st : PCF8591State) (value : Int) :
    Except PCF8591Err Unit × PCF8591State × List Event :=
  let byteVal := rescaleAO value
  if st.lastAnaOut = byteVal then
    (.ok (), st, [])
  else
    match bus.writeByteData [] (st.lastCtrlByte ||| pcf8591ANAON) byteVal with
    | .error e => (.error (.busError e), st,
        [.bus (.writeByteData (st.lastCtrlByte ||| pcf8591ANAON) byteVal)])
    | .ok _ => (.ok (),
        ⟨st.lastCtrlByte ||| pcf8591ANAON, byteVal⟩,
        [.bus (.writeByteData (st.lastCtrlByte ||| pcf8591ANAON) byteVal)])

/-- Go `PCF8591Driver.AnalogRead`: look up the description, set channel and
mode through `writeCtrlByte`, skip `1 + additionalSkip` bytes once
(`pcf8591RotateCount` is 0, so the skip loop body runs exactly once), then
read the real byte and rescale it.  The debug-only `LastRead` buffer is not
modelled. -/
def PCF8591Driver.AnalogRead (rescaleAI : Nat → Pcf8591ModeChan → Int)
    (additionalSkip : Nat) (bus : Bus) (st : PCF8591State)
    (description : String) :
    Except PCF8591Err Int × PCF8591State × List Event :=
  match pcf8591ModeMap description with
  | none => (.error .unknownDescription, st, [])
  | some mc =>
    match PCF8591Driver.writeCtrlByte bus st []
        (st.lastCtrlByte &&& (255 ^^^ pcf8591ADMASK) ||| mc.mode |||
          (mc.channel &&& (255 ^^^ pcf8591AION))) with
    | (.error e, st1, tr1) => (.error (.busError e), st1, tr1)
    | (.ok _, st1, tr1) =>
      match bus.readBytes tr1 (1 + additionalSkip) with
      | .error e => (.error (.busError e), st1,
          tr1 ++ [.bus (.readBytes (1 + additionalSkip))])
      | .ok bs =>
        if bs.length ≠ 1 + additionalSkip then
          (.error (.shortRead bs.length (1 + additionalSkip)), st1,
            tr1 ++ [.bus (.readBytes (1 + additionalSkip))])
        else
          match bus.readByte (tr1 ++ [.bus (.readBytes (1 + additionalSkip))]) with
          | .error e => (.error (.busError e), st1,
              tr1 ++ [.bus (.readBytes (1 + additionalSkip)), .bus .readByte])
          | .ok uval => (.ok (rescaleAI uval mc), st1,
              tr1 ++ [.bus (.readBytes (1 + additionalSkip)), .bus .readByte])

/-! ## PCA9501 driver (8-bit GPIO expander with EEPROM)

Embedded from `pca9501_driver.go`. -/

/-- Errors of the PCA9501 driver. -/
inductive PCA9501Err where
  | busError (e : Nat)
  | notEnoughBytes
deriving DecidableEq

/-- Go `setBitAtPos`: `n |= (1 << pos)` on `uint8`. -/
def setBitAtPos (n pos : Nat) : Nat := n ||| ((1 <<< pos) % 256)

/-- Go `clearBitAtPos`: `n &= ^uint8(1 << pos)`. -/
def clearBitAtPos (n pos : Nat) : Nat := n &&& (255 ^^^ ((1 <<< pos) % 256))

/-- Go `PCA9501Driver.WriteGPIO`: read the CTRL register, write it back with
bit `pin` cleared (output direction), read the port, write the port with
bit `pin` set or cleared according to `val`.  Each failing bus operation
aborts the sequence with that error. -/
def PCA9501Driver.WriteGPIO (bus : Bus) (pin val : Nat) :
    Except PCA9501Err Unit × List Event :=
  match bus.readBytes [] 1 with
  | .error e => (.error (.busError e), [.bus (.readBytes 1)])
  | .ok bs1 =>
    if bs1.length ≠ 1 then (.error .notEnoughBytes, [.bus (.readBytes 1)])
    else
      let iodirVal := clearBitAtPos (bs1.getD 0 0) pin
      match bus.writeBytes [.bus (.readBytes 1)] [iodirVal] with
      | .error e => (.error (.busError e),
          [.bus (.readBytes 1), .bus (.writeBytes [iodirVal])])
      | .ok _ =>
        match bus.readBytes [.bus (.readBytes 1), .bus (.writeBytes [iodirVal])] 1 with
        | .error e => (.error (.busError e),
            [.bus (.readBytes 1), .bus (.writeBytes [iodirVal]), .bus (.readBytes 1)])
        | .ok bs2 =>
          if bs2.length ≠ 1 then (.error .notEnoughBytes,
              [.bus (.readBytes 1), .bus (.writeBytes [iodirVal]), .bus (.readBytes 1)])
          else
            let nVal := if val = 0 then clearBitAtPos (bs2.getD 0 0) pin
              else setBitAtPos (bs2.getD 0 0) pin
            match bus.writeBytes
                [.bus (.readBytes 1), .bus (.writeBytes [iodirVal]), .bus (.readBytes 1)]
                [nVal] with
            | .error e => (.error (.busError e),
                [.bus (.readBytes 1), .bus (.writeBytes [iodirVal]),
                  .bus (.readBytes 1), .bus (.writeBytes [nVal])])
            | .ok _ => (.ok (),
                [.bus (.readBytes 1), .bus (.writeBytes [iodirVal]),
                  .bus (.readBytes 1), .bus (.writeBytes [nVal])])

/-- Go `PCA9501Driver.ReadGPIO`: read the CTRL register, write it back with
bit `pin` set (input direction), read the port and mask out bit `pin`,
normalising any non-zero masked value to 1. -/
def PCA9501Driver.ReadGPIO (bus : Bus) (pin : Nat) :
    Except PCA9501Err Nat × List Event :=
  match bus.readBytes [] 1 with
  | .error e => (.error (.busError e), [.bus (.readBytes 1)])
  | .ok bs1 =>
    if bs1.length ≠ 1 then (.error .notEnoughBytes, [.bus (.readBytes 1)])
    else
      let iodirVal := setBitAtPos (bs1.getD 0 0) pin
      match bus.writeBytes [.bus (.readBytes 1)] [iodirVal] with
      | .error e => (.error (.busError e),
          [.bus (.readBytes 1), .bus (.writeBytes [iodirVal])])
      | .ok _ =>
        match bus.readBytes [.bus (.readBytes 1), .bus (.writeBytes [iodirVal])] 1 with
        | .error e => (.error (.busError e),
            [.bus (.readBytes 1), .bus (.writeBytes [iodirVal]), .bus (.readBytes 1)])
        | .ok bs2 =>
          if bs2.length ≠ 1 then (.error .notEnoughBytes,
              [.bus (.readBytes 1), .bus (.writeBytes [iodirVal]), .bus (.readBytes 1)])
          else
            let v := ((1 <<< pin) % 256) &&& bs2.getD 0 0
            (.ok (if v > 1 then 1 else v),
              [.bus (.readBytes 1), .bus (.writeBytes [iodirVal]), .bus (.readBytes 1)])

/-! ## PCA953x driver (LED dimmer / GPIO)

Embedded from `pca953x_driver.go`. -/

/-- Errors of the PCA953x driver. -/
inductive PCA953xErr where
  | busError (e : Nat)
  | notEnoughBytes
  | toMuchBytes
deriving DecidableEq

/-- Go `pca953xRegInp` input register address. -/
def pca953xRegInp : Nat := 0x00

/-- Go `pca953xAiMask` auto-increment bit. -/
def pca953xAiMask : Nat := 0x10

/-- Go `PCA953xDriver.ReadGPIO`: `readRegister` of the input register (write
the register address with the AI bit cleared, then read one byte, with the
not-enough / too-many byte checks), then mask out bit `idx`, normalising
any non-zero masked value to 1. -/
def PCA953xDriver.ReadGPIO (bus : Bus) (idx : Nat) :
    Except PCA953xErr Nat × List Event :=
  match bus.writeBytes [] [pca953xRegInp &&& (255 ^^^ pca953xAiMask)] with
  | .error e => (.error (.busError e),
      [.bus (.writeBytes [pca953xRegInp &&& (255 ^^^ pca953xAiMask)])])
  | .ok _ =>
    match bus.readBytes [.bus (.writeBytes [pca953xRegInp &&& (255 ^^^ pca953xAiMask)])] 1 with
    | .error e => (.error (.busError e),
        [.bus (.writeBytes [pca953xRegInp &&& (255 ^^^ pca953xAiMask)]), .bus (.readBytes 1)])
    | .ok bs =>
      if bs.length < 1 then (.error .notEnoughBytes,
          [.bus (.writeBytes [pca953xRegInp &&& (255 ^^^ pca953xAiMask)]), .bus (.readBytes 1)])
      else if bs.length > 1 then (.error .toMuchBytes,
          [.bus (.writeBytes [pca953xRegInp &&& (255 ^^^ pca953xAiMask)]), .bus (.readBytes 1)])
      else
        let v := ((1 <<< idx) % 256) &&& bs.getD 0 0
        (.ok (if v > 1 then 1 else v),
          [.bus (.writeBytes [pca953xRegInp &&& (255 ^^^ pca953xAiMask)]), .bus (.readBytes 1)])

/-! ## MCP2221 adaptor

Embedded from `mcp2221_adaptor.go`. -/

/-- Errors of the MCP2221 adaptor. -/
inductive MCP2221Err where
  | outOfRange (bus : Int)
  | devError (e : Nat)
deriving DecidableEq

/-- The adaptor state: the (at most 10) opened sysfs i2c devices, `none`
for a bus that was never opened. -/
structure MCP2221State where
  i2cBuses : Int → Option Nat

/-- An `i2c.Connection` as produced by `i2c.NewConnection(device, address)`:
it wraps the (possibly nil) sysfs device and the target chip address. -/
structure I2cConnection where
  device : Option Nat
  address : Int
deriving DecidableEq

/-- Go `mcp2221MinBus`. -/
def mcp2221MinBus : Int := 6

/-- Go `mcp2221DefaultBus`. -/
def mcp2221DefaultBus : Int := 6

/-- Go `Adaptor.GetConnection`: reject bus numbers outside
`[mcp2221MinBus..9]`, open the sysfs device on first use (modelled by the
external `newI2cDevice` oracle, as `sysfs.NewI2cDevice` is outside this
repository), and return a connection wrapping the cached device and the
chip address.  As in the Go source, a failing device creation still
returns a connection (wrapping the nil device) alongside the error.  The
whole body runs under the adaptor's single mutex. -/
def MCP2221Adaptor.GetConnection (newI2cDevice : Int → Except Nat Nat)
    (st : MCP2221State) (address bus : Int) :
    Option I2cConnection × Option MCP2221Err × MCP2221State :=
  if bus < mcp2221MinBus ∨ bus > 9 then (none, some (.outOfRange bus), st)
  else
    match st.i2cBuses bus with
    | some d => (some ⟨some d, address⟩, none, st)
    | none =>
      match newI2cDevice bus with
      | .ok d => (some ⟨some d, address⟩, none,
          ⟨fun b => if b = bus then some d else st.i2cBuses b⟩)
      | .error e => (some ⟨none, address⟩, some (.devError e), st)

/-- Go `Adaptor.GetDefaultBus`. -/
def MCP2221Adaptor.GetDefaultBus : Int := mcp2221DefaultBus

/-! ## Concrete environments used by the witnesses -/

/-- A device that acknowledges everything and answers every read with
zeros. -/
def zeroBus : Bus where
  readByteData := fun _ _ => .ok 0
  writeByteData := fun _ _ _ => .ok ()
  writeBytes := fun _ d => .ok d.length
  readBytes := fun _ n => .ok (List.replicate n 0)
  writeByte := fun _ _ => .ok ()
  readByte := fun _ => .ok 0

/-- A device in event-counter mode (control register 0x27) whose counter
registers read back 0x21, 0x43, 0x65. -/
def pcf8583CounterBus : Bus where
  readByteData := fun _ _ => .ok 0x27
  writeByteData := fun _ _ _ => .ok ()
  writeBytes := fun _ d => .ok d.length
  readBytes := fun _ n => .ok (if n = 3 then [0x21, 0x43, 0x65] else List.replicate n 0)
  writeByte := fun _ _ => .ok ()
  readByte := fun _ => .ok 0

/-- A device in test mode (control register 0x30), which is neither a
clock mode nor the counter mode. -/
def pcf8583TestBus : Bus where
  readByteData := fun _ _ => .ok 0x30
  writeByteData := fun _ _ _ => .ok ()
  writeBytes := fun _ d => .ok d.length
  readBytes := fun _ n => .ok (List.replicate n 0)
  writeByte := fun _ _ => .ok ()
  readByte := fun _ => .ok 0

/-- A device whose single-byte reads answer 0xFF first and 0x0F from then
on (so the CTRL read and the port read of the PCA9501 differ). -/
def pca9501TestBus : Bus where
  readByteData := fun _ _ => .ok 0
  writeByteData := fun _ _ _ => .ok ()
  writeBytes := fun _ d => .ok d.length
  readBytes := fun tr _ => .ok [if tr = [] then 0xff else 0x0f]
  writeByte := fun _ _ => .ok ()
  readByte := fun _ => .ok 0

/-- BCD round trip on the encodable range. -/
lemma pcf8583_bcd_roundtrip_aux :
    ∀ v, v < 100 → pcf8583decodeBcd (pcf8583encodeBcd v) = v := by decide

/-- Claim C1: decoding the BCD encoding of `v` gives back `min v 99`:
the round trip is the identity for `v ≤ 99`, every `v > 99` encodes to
`0x99`, and the decoder clamps each nibble above 9 down to 9 so its result
is always at most 99. -/
theorem pcf8583_bcd_spec (v : Nat) :
    (v ≤ 99 → pcf8583decodeBcd (pcf8583encodeBcd v) = v) ∧
    (99 < v → pcf8583encodeBcd v = 0x99) ∧
    pcf8583decodeBcd v ≤ 99 := by
  refine ⟨fun h => pcf8583_bcd_roundtrip_aux v (by omega), fun h => ?_, ?_⟩
  · unfold pcf8583encodeBcd
    rw [if_pos h]
    decide
  · unfold pcf8583decodeBcd
    have hlo : v &&& 0x0f ≤ 15 := Nat.and_le_right
    dsimp only
    split <;> split <;> omega

/-- Witness for C1 at concrete inputs. -/
theorem pcf8583_bcd_spec_witness :
    pcf8583decodeBcd (pcf8583encodeBcd 41) = 41 ∧
    pcf8583encodeBcd 123 = 0x99 ∧
    pcf8583decodeBcd 0xAB ≤ 99 :=
  ⟨(pcf8583_bcd_spec 41).1 (by decide), (pcf8583_bcd_spec 123).2.1 (by decide),
    (pcf8583_bcd_spec 0xAB).2.2⟩

/-! ### PCF8583 operation characterisations (shared helper lemmas) -/

lemma pcf8583_writeTime_wrong (bus : Bus) (st : PCF8583State) (tm : GoTime)
    (ctrl : Nat) (hread : bus.readByteData [.lock] pcf8583CTRL = .ok ctrl)
    (hm : pcf8583IsClockMode ctrl = false) :
    PCF8583Driver.WriteTime bus st tm =
      (.error (.wrongMode ctrl), st,
        [.lock, .bus (.readByteData pcf8583CTRL), .unlock]) := by
  unfold PCF8583Driver.WriteTime
  rw [hread]
  dsimp only
  rw [if_pos hm]

lemma pcf8583_writeTime_noWrong (bus : Bus) (st : PCF8583State) (tm : GoTime)
    (ctrl : Nat) (hread : bus.readByteData [.lock] pcf8583CTRL = .ok ctrl)
    (hm : pcf8583IsClockMode ctrl = true) (c : Nat) :
    (PCF8583Driver.WriteTime bus st tm).1 ≠ .error (.wrongMode c) := by
  unfold PCF8583Driver.WriteTime
  rw [hread]
  dsimp only
  rw [if_neg (by simp [hm])]
  cases h2 : bus.writeBytes [.lock, .bus (.readByteData pcf8583CTRL)]
      (pcf8583TimePayload ctrl tm) with
  | error e => simp
  | ok w =>
    dsimp only
    split
    · simp
    · split <;> simp

lemma pcf8583_writeTime_success (bus : Bus) (st : PCF8583State) (tm : GoTime)
    (ctrl : Nat) (hread : bus.readByteData [.lock] pcf8583CTRL = .ok ctrl)
    (hm : pcf8583IsClockMode ctrl = true)
    (hw : bus.writeBytes [.lock, .bus (.readByteData pcf8583CTRL)]
      (pcf8583TimePayload ctrl tm) = .ok 8)
    (hrun : bus.writeByteData
      [.lock, .bus (.readByteData pcf8583CTRL),
        .bus (.writeBytes (pcf8583TimePayload ctrl tm))]
      pcf8583CTRL (ctrl &&& (255 ^^^ pcf8583StopCounting)) = .ok ()) :
    (PCF8583Driver.WriteTime bus st tm).1 = .ok () := by
  unfold PCF8583Driver.WriteTime
  rw [hread]
  dsimp only
  rw [if_neg (by simp [hm]), hw]
  dsimp only
  rw [if_neg (by simp), hrun]

lemma pcf8583_writeTime_trace (bus : Bus) (st : PCF8583State) (tm : GoTime) :
    ∃ mid, (PCF8583Driver.WriteTime bus st tm).2.2 = .lock :: mid ++ [.unlock] ∧
      Event.lock ∉ mid ∧ Event.unlock ∉ mid := by
  unfold PCF8583Driver.WriteTime
  cases h : bus.readByteData [.lock] pcf8583CTRL with
  | error e => exact ⟨[.bus (.readByteData pcf8583CTRL)], by simp, by simp, by simp⟩
  | ok ctrl =>
    dsimp only
    by_cases hm : pcf8583IsClockMode ctrl = false
    · rw [if_pos hm]
      exact ⟨[.bus (.readByteData pcf8583CTRL)], by simp, by simp, by simp⟩
    · rw [if_neg hm]
      cases h2 : bus.writeBytes [.lock, .bus (.readByteData pcf8583CTRL)]
          (pcf8583TimePayload ctrl tm) with
      | error e =>
        exact ⟨[.bus (.readByteData pcf8583CTRL),
          .bus (.writeBytes (pcf8583TimePayload ctrl tm))], by simp, by simp, by simp⟩
      | ok w =>
        dsimp only
        split
        · exact ⟨[.bus (.readByteData pcf8583CTRL),
            .bus (.writeBytes (pcf8583TimePayload ctrl tm))], by simp, by simp, by simp⟩
        · split <;>
            exact ⟨[.bus (.readByteData pcf8583CTRL),
              .bus (.writeBytes (pcf8583TimePayload ctrl tm)),
              .bus (.writeByteData pcf8583CTRL (ctrl &&& (255 ^^^ pcf8583StopCounting)))],
              by simp, by simp, by simp⟩

lemma pcf8583_readTime_wrong (bus : Bus) (st : PCF8583State)
    (ctrl : Nat) (hread : bus.readByteData [.lock] pcf8583CTRL = .ok ctrl)
    (hm : pcf8583IsClockMode ctrl = false) :
    PCF8583Driver.ReadTime bus st =
      (.error (.wrongMode ctrl),
        [.lock, .bus (.readByteData pcf8583CTRL), .unlock]) := by
  unfold PCF8583Driver.ReadTime
  rw [hread]
  dsimp only
  rw [if_pos hm]

lemma pcf8583_readTime_noWrong (bus : Bus) (st : PCF8583State)
    (ctrl : Nat) (hread : bus.readByteData [.lock] pcf8583CTRL = .ok ctrl)
    (hm : pcf8583IsClockMode ctrl = true) (c : Nat) :
    (PCF8583Driver.ReadTime bus st).1 ≠ .error (.wrongMode c) := by
  unfold PCF8583Driver.ReadTime
  rw [hread]
  dsimp only
  rw [if_neg (by simp [hm])]
  cases h2 : bus.readBytes [.lock, .bus (.readByteData pcf8583CTRL)] 6 with
  | error e => simp
  | ok data =>
    dsimp only
    split <;> simp

lemma pcf8583_readTime_success (bus : Bus) (st : PCF8583State)
    (ctrl : Nat) (data : List Nat)
    (hread : bus.readByteData [.lock] pcf8583CTRL = .ok ctrl)
    (hm : pcf8583IsClockMode ctrl = true)
    (hr : bus.readBytes [.lock, .bus (.readByteData pcf8583CTRL)] 6 = .ok data)
    (hlen : data.length = 6) :
    (PCF8583Driver.ReadTime bus st).1 = .ok (pcf8583DecodedTime st data) := by
  unfold PCF8583Driver.ReadTime
  rw [hread]
  dsimp only
  rw [if_neg (by simp [hm]), hr]
  dsimp only
  rw [if_neg (by simp [hlen])]

lemma pcf8583_readTime_trace (bus : Bus) (st : PCF8583State) :
    ∃ mid, (PCF8583Driver.ReadTime bus st).2 = .lock :: mid ++ [.unlock] ∧
      Event.lock ∉ mid ∧ Event.unlock ∉ mid := by
  unfold PCF8583Driver.ReadTime
  cases h : bus.readByteData [.lock] pcf8583CTRL with
  | error e => exact ⟨[.bus (.readByteData pcf8583CTRL)], by simp, by simp, by simp⟩
  | ok ctrl =>
    dsimp only
    by_cases hm : pcf8583IsClockMode ctrl = false
    · rw [if_pos hm]
      exact ⟨[.bus (.readByteData pcf8583CTRL)], by simp, by simp, by simp⟩
    · rw [if_neg hm]
      cases h2 : bus.readBytes [.lock, .bus (.readByteData pcf8583CTRL)] 6 with
      | error e =>
        exact ⟨[.bus (.readByteData pcf8583CTRL), .bus (.readBytes 6)],
          by simp, by simp, by simp⟩
      | ok data =>
        dsimp only
        split <;>
          exact ⟨[.bus (.readByteData pcf8583CTRL), .bus (.readBytes 6)],
            by simp, by simp, by simp⟩

lemma pcf8583_writeCounter_wrong (bus : Bus) (st : PCF8583State) (val : Int)
    (ctrl : Nat) (hread : bus.readByteData [.lock] pcf8583CTRL = .ok ctrl)
    (hm : pcf8583IsCounterMode ctrl = false) :
    PCF8583Driver.WriteCounter bus st val =
      (.error (.wrongMode ctrl),
        [.lock, .bus (.readByteData pcf8583CTRL), .unlock]) := by
  unfold PCF8583Driver.WriteCounter
  rw [hread]
  dsimp only
  rw [if_pos hm]

lemma pcf8583_writeCounter_noWrong (bus : Bus) (st : PCF8583State) (val : Int)
    (ctrl : Nat) (hread : bus.readByteData [.lock] pcf8583CTRL = .ok ctrl)
    (hm : pcf8583IsCounterMode ctrl = true) (c : Nat) :
    (PCF8583Driver.WriteCounter bus st val).1 ≠ .error (.wrongMode c) := by
  unfold PCF8583Driver.WriteCounter
  rw [hread]
  dsimp only
  rw [if_neg (by simp [hm])]
  cases h2 : bus.writeBytes [.lock, .bus (.readByteData pcf8583CTRL)]
      (pcf8583CounterPayload ctrl val) with
  | error e => simp
  | ok w =>
    dsimp only
    split
    · simp
    · split <;> simp

lemma pcf8583_writeCounter_success (bus : Bus) (st : PCF8583State) (val : Int)
    (ctrl : Nat) (hread : bus.readByteData [.lock] pcf8583CTRL = .ok ctrl)
    (hm : pcf8583IsCounterMode ctrl = true)
    (hw : bus.writeBytes [.lock, .bus (.readByteData pcf8583CTRL)]
      (pcf8583CounterPayload ctrl val) = .ok 5)
    (hrun : bus.writeByteData
      [.lock, .bus (.readByteData pcf8583CTRL),
        .bus (.writeBytes (pcf8583CounterPayload ctrl val))]
      pcf8583CTRL (ctrl &&& (255 ^^^ pcf8583StopCounting)) = .ok ()) :
    (PCF8583Driver.WriteCounter bus st val).1 = .ok () := by
  unfold PCF8583Driver.WriteCounter
  rw [hread]
  dsimp only
  rw [if_neg (by simp [hm]), hw]
  dsimp only
  rw [if_neg (by simp), hrun]

lemma pcf8583_writeCounter_firstEvents (bus : Bus) (st : PCF8583State) (val : Int)
    (ctrl : Nat) (hread : bus.readByteData [.lock] pcf8583CTRL = .ok ctrl)
    (hm : pcf8583IsCounterMode ctrl = true) :
    ∃ rest, (PCF8583Driver.WriteCounter bus st val).2 =
      [.lock, .bus (.readByteData pcf8583CTRL),
        .bus (.writeBytes (pcf8583CounterPayload ctrl val))] ++ rest := by
  unfold PCF8583Driver.WriteCounter
  rw [hread]
  dsimp only
  rw [if_neg (by simp [hm])]
  cases h2 : bus.writeBytes [.lock, .bus (.readByteData pcf8583CTRL)]
      (pcf8583CounterPayload ctrl val) with
  | error e => exact ⟨[.unlock], by simp⟩
  | ok w =>
    dsimp only
    split
    · exact ⟨[.unlock], by simp⟩
    · split <;>
        exact ⟨[.bus (.writeByteData pcf8583CTRL (ctrl &&& (255 ^^^ pcf8583StopCounting))),
          .unlock], by simp⟩

lemma pcf8583_writeCounter_trace (bus : Bus) (st : PCF8583State) (val : Int) :
    ∃ mid, (PCF8583Driver.WriteCounter bus st val).2 = .lock :: mid ++ [.unlock] ∧
      Event.lock ∉ mid ∧ Event.unlock ∉ mid := by
  unfold PCF8583Driver.WriteCounter
  cases h : bus.readByteData [.lock] pcf8583CTRL with
  | error e => exact ⟨[.bus (.readByteData pcf8583CTRL)], by simp, by simp, by simp⟩
  | ok ctrl =>
    dsimp only
    by_cases hm : pcf8583IsCounterMode ctrl = false
    · rw [if_pos hm]
      exact ⟨[.bus (.readByteData pcf8583CTRL)], by simp, by simp, by simp⟩
    · rw [if_neg hm]
      cases h2 : bus.writeBytes [.lock, .bus (.readByteData pcf8583CTRL)]
          (pcf8583CounterPayload ctrl val) with
      | error e =>
        exact ⟨[.bus (.readByteData pcf8583CTRL),
          .bus (.writeBytes (pcf8583CounterPayload ctrl val))], by simp, by simp, by simp⟩
      | ok w =>
        dsimp only
        split
        · exact ⟨[.bus (.readByteData pcf8583CTRL),
            .bus (.writeBytes (pcf8583CounterPayload ctrl val))], by simp, by simp, by simp⟩
        · split <;>
            exact ⟨[.bus (.readByteData pcf8583CTRL),
              .bus (.writeBytes (pcf8583CounterPayload ctrl val)),
              .bus (.writeByteData pcf8583CTRL (ctrl &&& (255 ^^^ pcf8583StopCounting)))],
              by simp, by simp, by simp⟩

lemma pcf8583_readCounter_wrong (bus : Bus) (st : PCF8583State)
    (ctrl : Nat) (hread : bus.readByteData [.lock] pcf8583CTRL = .ok ctrl)
    (hm : pcf8583IsCounterMode ctrl = false) :
    PCF8583Driver.ReadCounter bus st =
      (.error (.wrongMode ctrl),
        [.lock, .bus (.readByteData pcf8583CTRL), .unlock]) := by
  unfold PCF8583Driver.ReadCounter
  rw [hread]
  dsimp only
  rw [if_pos hm]

lemma pcf8583_readCounter_noWrong (bus : Bus) (st : PCF8583State)
    (ctrl : Nat) (hread : bus.readByteData [.lock] pcf8583CTRL = .ok ctrl)
    (hm : pcf8583IsCounterMode ctrl = true) (c : Nat) :
    (PCF8583Driver.ReadCounter bus st).1 ≠ .error (.wrongMode c) := by
  unfold PCF8583Driver.ReadCounter
  rw [hread]
  dsimp only
  rw [if_neg (by simp [hm])]
  cases h2 : bus.readBytes [.lock, .bus (.readByteData pcf8583CTRL)] 3 with
  | error e => simp
  | ok data =>
    dsimp only
    split <;> simp

lemma pcf8583_readCounter_success (bus : Bus) (st : PCF8583State)
    (ctrl : Nat) (data : List Nat)
    (hread : bus.readByteData [.lock] pcf8583CTRL = .ok ctrl)
    (hm : pcf8583IsCounterMode ctrl = true)
    (hr : bus.readBytes [.lock, .bus (.readByteData pcf8583CTRL)] 3 = .ok data)
    (hlen : data.length = 3) :
    (PCF8583Driver.ReadCounter bus st).1 =
      .ok ((pcf8583decodeBcd (data.getD 0 0) : Int) +
        (pcf8583decodeBcd (data.getD 1 0) : Int) * 100 +
        (pcf8583decodeBcd (data.getD 2 0) : Int) * 10000) := by
  unfold PCF8583Driver.ReadCounter
  rw [hread]
  dsimp only
  rw [if_neg (by simp [hm]), hr]
  dsimp only
  rw [if_neg (by simp [hlen])]

lemma pcf8583_readCounter_trace (bus : Bus) (st : PCF8583State) :
    ∃ mid, (PCF8583Driver.ReadCounter bus st).2 = .lock :: mid ++ [.unlock] ∧
      Event.lock ∉ mid ∧ Event.unlock ∉ mid := by
  unfold PCF8583Driver.ReadCounter
  cases h : bus.readByteData [.lock] pcf8583CTRL with
  | error e => exact ⟨[.bus (.readByteData pcf8583CTRL)], by simp, by simp, by simp⟩
  | ok ctrl =>
    dsimp only
    by_cases hm : pcf8583IsCounterMode ctrl = false
    · rw [if_pos hm]
      exact ⟨[.bus (.readByteData pcf8583CTRL)], by simp, by simp, by simp⟩
    · rw [if_neg hm]
      cases h2 : bus.readBytes [.lock, .bus (.readByteData pcf8583CTRL)] 3 with
      | error e =>
        exact ⟨[.bus (.readByteData pcf8583CTRL), .bus (.readBytes 3)],
          by simp, by simp, by simp⟩
      | ok data =>
        dsimp only
        split <;>
          exact ⟨[.bus (.readByteData pcf8583CTRL), .bus (.readBytes 3)],
            by simp, by simp, by simp⟩

lemma pcf8583_writeRAM_no_mutex (bus : Bus) (st : PCF8583State) (address val : Nat) :
    Event.lock ∉ (PCF8583Driver.WriteRAM bus st address val).2 ∧
      Event.unlock ∉ (PCF8583Driver.WriteRAM bus st address val).2 ∧
      (PCF8583Driver.WriteRAM bus st address val).2.length ≤ 1 := by
  unfold PCF8583Driver.WriteRAM
  split
  · simp
  · cases h : bus.writeByteData [] ((address + st.ramOffset) % 256) val with
    | error e => simp
    | ok u => simp

lemma pcf8583_readRAM_no_mutex (bus : Bus) (st : PCF8583State) (address : Nat) :
    Event.lock ∉ (PCF8583Driver.ReadRAM bus st address).2 ∧
      Event.unlock ∉ (PCF8583Driver.ReadRAM bus st address).2 ∧
      (PCF8583Driver.ReadRAM bus st address).2.length ≤ 1 := by
  unfold PCF8583Driver.ReadRAM
  split
  · simp
  · cases h : bus.readByteData [] ((address + st.ramOffset) % 256) with
    | error e => simp
    | ok u => simp

/-- The BCD bytes of the counter payload are exactly the three pairs of
decimal digits of a non-negative value. -/
lemma pcf8583CounterPayload_digits (ctrl : Nat) (val : Int) (h0 : 0 ≤ val) :
    pcf8583CounterPayload ctrl val =
      [pcf8583CTRL, ctrl ||| pcf8583StopCounting,
        pcf8583encodeBcd (val % 100).toNat,
        pcf8583encodeBcd ((val / 100) % 100).toNat,
        pcf8583encodeBcd ((val / 10000) % 100).toNat] := by
  have hmod : ∀ a : Int, 0 ≤ a → goUInt8 (a.tmod 100) = (a % 100).toNat := by
    intro a ha
    rw [Int.tmod_eq_emod ha (by norm_num)]
    unfold goUInt8
    rw [Int.emod_eq_of_lt (Int.emod_nonneg a (by norm_num))
      (lt_trans (Int.emod_lt_of_pos a (by norm_num)) (by norm_num))]
  unfold pcf8583CounterPayload
  rw [hmod val h0, Int.tdiv_eq_ediv h0 (by norm_num),
    hmod (val / 100) (Int.ediv_nonneg h0 (by norm_num)),
    Int.tdiv_eq_ediv h0 (by norm_num),
    hmod (val / 10000) (Int.ediv_nonneg h0 (by norm_num))]

/-- Claim C3: assuming the control-register read succeeds, the four clock
and counter operations of the PCF8583 driver fail with the wrong-mode
error exactly when the device mode does not fit (counter-mode bit 0x20 set
for the clock operations; counter mode not configured for the counter
operations); in the wrong-mode case nothing is written to the bus (the
trace holds only the control-register read), and in the right mode with a
well-behaved bus each operation succeeds. -/
theorem pcf8583_mode_guard (bus : Bus) (st : PCF8583State) (tm : GoTime)
    (cval : Int) (ctrl : Nat)
    (hread : bus.readByteData [.lock] pcf8583CTRL = .ok ctrl) :
    ((PCF8583Driver.WriteTime bus st tm).1 = .error (.wrongMode ctrl) ↔
      pcf8583IsClockMode ctrl = false) ∧
    (pcf8583IsClockMode ctrl = false →
      (PCF8583Driver.WriteTime bus st tm).2.2 =
        [.lock, .bus (.readByteData pcf8583CTRL), .unlock]) ∧
    (pcf8583IsClockMode ctrl = true →
      bus.writeBytes [.lock, .bus (.readByteData pcf8583CTRL)]
        (pcf8583TimePayload ctrl tm) = .ok 8 →
      bus.writeByteData [.lock, .bus (.readByteData pcf8583CTRL),
        .bus (.writeBytes (pcf8583TimePayload ctrl tm))]
        pcf8583CTRL (ctrl &&& (255 ^^^ pcf8583StopCounting)) = .ok () →
      (PCF8583Driver.WriteTime bus st tm).1 = .ok ()) ∧
    ((PCF8583Driver.ReadTime bus st).1 = .error (.wrongMode ctrl) ↔
      pcf8583IsClockMode ctrl = false) ∧
    (pcf8583IsClockMode ctrl = false →
      (PCF8583Driver.ReadTime bus st).2 =
        [.lock, .bus (.readByteData pcf8583CTRL), .unlock]) ∧
    (∀ data : List Nat, pcf8583IsClockMode ctrl = true →
      bus.readBytes [.lock, .bus (.readByteData pcf8583CTRL)] 6 = .ok data →
      data.length = 6 →
      (PCF8583Driver.ReadTime bus st).1 = .ok (pcf8583DecodedTime st data)) ∧
    ((PCF8583Driver.WriteCounter bus st cval).1 = .error (.wrongMode ctrl) ↔
      pcf8583IsCounterMode ctrl = false) ∧
    (pcf8583IsCounterMode ctrl = false →
      (PCF8583Driver.WriteCounter bus st cval).2 =
        [.lock, .bus (.readByteData pcf8583CTRL), .unlock]) ∧
    (pcf8583IsCounterMode ctrl = true →
      bus.writeBytes [.lock, .bus (.readByteData pcf8583CTRL)]
        (pcf8583CounterPayload ctrl cval) = .ok 5 →
      bus.writeByteData [.lock, .bus (.readByteData pcf8583CTRL),
        .bus (.writeBytes (pcf8583CounterPayload ctrl cval))]
        pcf8583CTRL (ctrl &&& (255 ^^^ pcf8583StopCounting)) = .ok () →
      (PCF8583Driver.WriteCounter bus st cval).1 = .ok ()) ∧
    ((PCF8583Driver.ReadCounter bus st).1 = .error (.wrongMode ctrl) ↔
      pcf8583IsCounterMode ctrl = false) ∧
    (pcf8583IsCounterMode ctrl = false →
      (PCF8583Driver.ReadCounter bus st).2 =
        [.lock, .bus (.readByteData pcf8583CTRL), .unlock]) ∧
    (∀ data : List Nat, pcf8583IsCounterMode ctrl = true →
      bus.readBytes [.lock, .bus (.readByteData pcf8583CTRL)] 3 = .ok data →
      data.length = 3 →
      ∃ v, (PCF8583Driver.ReadCounter bus st).1 = .ok v) := by
  refine ⟨⟨fun h => ?_, fun h => by rw [pcf8583_writeTime_wrong bus st tm ctrl hread h]⟩,
    fun h => by rw [pcf8583_writeTime_wrong bus st tm ctrl hread h],
    fun h hw hrun => pcf8583_writeTime_success bus st tm ctrl hread h hw hrun,
    ⟨fun h => ?_, fun h => by rw [pcf8583_readTime_wrong bus st ctrl hread h]⟩,
    fun h => by rw [pcf8583_readTime_wrong bus st ctrl hread h],
    fun data h hr hlen => pcf8583_readTime_success bus st ctrl data hread h hr hlen,
    ⟨fun h => ?_, fun h => by rw [pcf8583_writeCounter_wrong bus st cval ctrl hread h]⟩,
    fun h => by rw [pcf8583_writeCounter_wrong bus st cval ctrl hread h],
    fun h hw hrun => pcf8583_writeCounter_success bus st cval ctrl hread h hw hrun,
    ⟨fun h => ?_, fun h => by rw [pcf8583_readCounter_wrong bus st ctrl hread h]⟩,
    fun h => by rw [pcf8583_readCounter_wrong bus st ctrl hread h],
    fun data h hr hlen =>
      ⟨_, pcf8583_readCounter_success bus st ctrl data hread h hr hlen⟩⟩
  · by_contra hm
    exact pcf8583_writeTime_noWrong bus st tm ctrl hread
      (by revert hm; cases pcf8583IsClockMode ctrl <;> simp) ctrl h
  · by_contra hm
    exact pcf8583_readTime_noWrong bus st ctrl hread
      (by revert hm; cases pcf8583IsClockMode ctrl <;> simp) ctrl h
  · by_contra hm
    exact pcf8583_writeCounter_noWrong bus st cval ctrl hread
      (by revert hm; cases pcf8583IsCounterMode ctrl <;> simp) ctrl h
  · by_contra hm
    exact pcf8583_readCounter_noWrong bus st ctrl hread
      (by revert hm; cases pcf8583IsCounterMode ctrl <;> simp) ctrl h

/-- Witness for C3 on a device in test mode (control register 0x30, which
is neither a clock mode nor counter mode). -/
theorem pcf8583_mode_guard_witness :
    (PCF8583Driver.WriteTime pcf8583TestBus ⟨0, 0x10⟩
        ⟨2022, 12, 16, 15, 14, 13, 210000000, 5⟩).2.2 =
      [.lock, .bus (.readByteData pcf8583CTRL), .unlock] ∧
    (PCF8583Driver.WriteCounter pcf8583TestBus ⟨0, 0x10⟩ 123).1 =
      .error (.wrongMode 0x30) ∧
    (PCF8583Driver.ReadCounter pcf8583TestBus ⟨0, 0x10⟩).2 =
      [.lock, .bus (.readByteData pcf8583CTRL), .unlock] := by
  have h := pcf8583_mode_guard pcf8583TestBus ⟨0, 0x10⟩
    ⟨2022, 12, 16, 15, 14, 13, 210000000, 5⟩ 123 0x30 rfl
  exact ⟨h.2.1 (by decide), (h.2.2.2.2.2.2.1).mpr (by decide),
    h.2.2.2.2.2.2.2.1 (by decide)⟩

/-- Claim C2: `WriteCounter` sends (after the control-register bytes)
exactly the three BCD bytes holding the pairs of decimal digits
`val % 100`, `(val / 100) % 100`, `(val / 10000) % 100`, and under a bus
model in counter mode whose subsequent read returns those same three
bytes, `ReadCounter` returns `val % 1000000`. -/
theorem pcf8583_counter_roundtrip (val : Int) (bus : Bus) (st : PCF8583State)
    (ctrl : Nat) (h0 : 0 ≤ val) (h31 : val < 2 ^ 31)
    (hmode : pcf8583IsCounterMode ctrl = true)
    (hread : bus.readByteData [.lock] pcf8583CTRL = .ok ctrl) :
    (∃ rest, (PCF8583Driver.WriteCounter bus st val).2 =
      [.lock, .bus (.readByteData pcf8583CTRL),
        .bus (.writeBytes [pcf8583CTRL, ctrl ||| pcf8583StopCounting,
          pcf8583encodeBcd (val % 100).toNat,
          pcf8583encodeBcd ((val / 100) % 100).toNat,
          pcf8583encodeBcd ((val / 10000) % 100).toNat])] ++ rest) ∧
    (∀ bus2 : Bus, bus2.readByteData [.lock] pcf8583CTRL = .ok ctrl →
      bus2.readBytes [.lock, .bus (.readByteData pcf8583CTRL)] 3 =
        .ok [pcf8583encodeBcd (val % 100).toNat,
          pcf8583encodeBcd ((val / 100) % 100).toNat,
          pcf8583encodeBcd ((val / 10000) % 100).toNat] →
      (PCF8583Driver.ReadCounter bus2 st).1 = .ok (val % 1000000)) := by
  have hd0 : (val % 100).toNat < 100 := by
    have := Int.emod_lt_of_pos val (show (0:Int) < 100 by norm_num)
    have := Int.emod_nonneg val (show (100:Int) ≠ 0 by norm_num)
    omega
  have hd1 : ((val / 100) % 100).toNat < 100 := by
    have := Int.emod_lt_of_pos (val / 100) (show (0:Int) < 100 by norm_num)
    have := Int.emod_nonneg (val / 100) (show (100:Int) ≠ 0 by norm_num)
    omega
  have hd2 : ((val / 10000) % 100).toNat < 100 := by
    have := Int.emod_lt_of_pos (val / 10000) (show (0:Int) < 100 by norm_num)
    have := Int.emod_nonneg (val / 10000) (show (100:Int) ≠ 0 by norm_num)
    omega
  constructor
  · have h := pcf8583_writeCounter_firstEvents bus st val ctrl hread hmode
    rwa [pcf8583CounterPayload_digits ctrl val h0] at h
  · intro bus2 hread2 hr
    have h := pcf8583_readCounter_success bus2 st ctrl _ hread2 hmode hr (by simp)
    rw [h]
    congr 1
    rw [show (([pcf8583encodeBcd (val % 100).toNat,
      pcf8583encodeBcd ((val / 100) % 100).toNat,
      pcf8583encodeBcd ((val / 10000) % 100).toNat] : List Nat).getD 0 0) =
        pcf8583encodeBcd (val % 100).toNat from rfl]
    rw [show (([pcf8583encodeBcd (val % 100).toNat,
      pcf8583encodeBcd ((val / 100) % 100).toNat,
      pcf8583encodeBcd ((val / 10000) % 100).toNat] : List Nat).getD 1 0) =
        pcf8583encodeBcd ((val / 100) % 100).toNat from rfl]
    rw [show (([pcf8583encodeBcd (val % 100).toNat,
      pcf8583encodeBcd ((val / 100) % 100).toNat,
      pcf8583encodeBcd ((val / 10000) % 100).toNat] : List Nat).getD 2 0) =
        pcf8583encodeBcd ((val / 10000) % 100).toNat from rfl]
    rw [pcf8583_bcd_roundtrip_aux _ hd0, pcf8583_bcd_roundtrip_aux _ hd1,
      pcf8583_bcd_roundtrip_aux _ hd2]
    have e0 : (0:Int) ≤ val % 100 := Int.emod_nonneg val (by norm_num)
    have e1 : (0:Int) ≤ (val / 100) % 100 := Int.emod_nonneg _ (by norm_num)
    have e2 : (0:Int) ≤ (val / 10000) % 100 := Int.emod_nonneg _ (by norm_num)
    omega

/-- Witness for C2 at `val = 654321` against a concrete counter-mode
device. -/
theorem pcf8583_counter_roundtrip_witness :
    (∃ rest, (PCF8583Driver.WriteCounter pcf8583CounterBus ⟨0, 0x10⟩ 654321).2 =
      [.lock, .bus (.readByteData pcf8583CTRL),
        .bus (.writeBytes [pcf8583CTRL, 0x27 ||| pcf8583StopCounting,
          pcf8583encodeBcd ((654321 : Int) % 100).toNat,
          pcf8583encodeBcd (((654321 : Int) / 100) % 100).toNat,
          pcf8583encodeBcd (((654321 : Int) / 10000) % 100).toNat])] ++ rest) ∧
    (PCF8583Driver.ReadCounter pcf8583CounterBus ⟨0, 0x10⟩).1 =
      .ok ((654321 : Int) % 1000000) := by
  have h := pcf8583_counter_roundtrip 654321 pcf8583CounterBus ⟨0, 0x10⟩ 0x27
    (by decide) (by decide) (by decide) rfl
  exact ⟨h.1, h.2 pcf8583CounterBus rfl rfl⟩

/-- Claim C7 (amended): the multi-register sequences of the PCF8583 driver
(`WriteTime`, `ReadTime`, `WriteCounter`, `ReadCounter`) each run their
whole bus sequence inside a single lock/unlock bracket of the driver's one
mutex, while `WriteRAM` and `ReadRAM` perform their (at most one) bus
transfer without ever touching the mutex. -/
theorem pcf8583_mutex_discipline (bus : Bus) (st : PCF8583State) (tm : GoTime)
    (cval : Int) (address val : Nat) :
    (∃ mid, (PCF8583Driver.WriteTime bus st tm).2.2 = .lock :: mid ++ [.unlock] ∧
      Event.lock ∉ mid ∧ Event.unlock ∉ mid) ∧
    (∃ mid, (PCF8583Driver.ReadTime bus st).2 = .lock :: mid ++ [.unlock] ∧
      Event.lock ∉ mid ∧ Event.unlock ∉ mid) ∧
    (∃ mid, (PCF8583Driver.WriteCounter bus st cval).2 = .lock :: mid ++ [.unlock] ∧
      Event.lock ∉ mid ∧ Event.unlock ∉ mid) ∧
    (∃ mid, (PCF8583Driver.ReadCounter bus st).2 = .lock :: mid ++ [.unlock] ∧
      Event.lock ∉ mid ∧ Event.unlock ∉ mid) ∧
    (Event.lock ∉ (PCF8583Driver.WriteRAM bus st address val).2 ∧
      Event.unlock ∉ (PCF8583Driver.WriteRAM bus st address val).2 ∧
      (PCF8583Driver.WriteRAM bus st address val).2.length ≤ 1) ∧
    (Event.lock ∉ (PCF8583Driver.ReadRAM bus st address).2 ∧
      Event.unlock ∉ (PCF8583Driver.ReadRAM bus st address).2 ∧
      (PCF8583Driver.ReadRAM bus st address).2.length ≤ 1) :=
  ⟨pcf8583_writeTime_trace bus st tm, pcf8583_readTime_trace bus st,
    pcf8583_writeCounter_trace bus st cval, pcf8583_readCounter_trace bus st,
    pcf8583_writeRAM_no_mutex bus st address val,
    pcf8583_readRAM_no_mutex bus st address⟩

/-- Counterexample for C7 as stated: `WriteRAM` is a public bus-access
operation of the PCF8583 driver, yet its bus transfer happens without the
mutex ever being taken. -/
theorem pcf8583_ram_unguarded_cex :
    (PCF8583Driver.WriteRAM zeroBus ⟨0, 0x10⟩ 0x00 0x05).2 =
      [.bus (.writeByteData 0x10 0x05)] ∧
    Event.lock ∉ (PCF8583Driver.WriteRAM zeroBus ⟨0, 0x10⟩ 0x00 0x05).2 := by
  constructor
  · rfl
  · decide

/-- Claim C10: with the default RAM offset 0x10, `WriteRAM` and `ReadRAM`
return an address-overflow error exactly for addresses above 0xEF, perform
no bus operation at all in that case, and otherwise perform exactly one
transfer to chip register `address + 0x10`. -/
theorem pcf8583_ram_range_check (bus : Bus) (st : PCF8583State)
    (address val : Nat) (hram : st.ramOffset = 0x10) (haddr : address < 256) :
    ((∃ a, (PCF8583Driver.WriteRAM bus st address val).1 = .error (.ramOverflow a)) ↔
      0xef < address) ∧
    (0xef < address →
      PCF8583Driver.WriteRAM bus st address val =
        (.error (.ramOverflow (address + 0x10)), [])) ∧
    (address ≤ 0xef →
      (PCF8583Driver.WriteRAM bus st address val).2 =
        [.bus (.writeByteData (address + 0x10) val)]) ∧
    ((∃ a, (PCF8583Driver.ReadRAM bus st address).1 = .error (.ramOverflow a)) ↔
      0xef < address) ∧
    (0xef < address →
      PCF8583Driver.ReadRAM bus st address =
        (.error (.ramOverflow (address + 0x10)), [])) ∧
    (address ≤ 0xef →
      (PCF8583Driver.ReadRAM bus st address).2 =
        [.bus (.readByteData (address + 0x10))]) := by
  unfold PCF8583Driver.WriteRAM PCF8583Driver.ReadRAM
  rw [hram]
  by_cases h : 0xef < address
  · rw [if_pos (by omega), if_pos (by omega)]
    refine ⟨⟨fun _ => h, fun _ => ⟨address + 0x10, rfl⟩⟩, fun _ => rfl,
      fun hc => absurd h (by omega), ⟨fun _ => h, fun _ => ⟨address + 0x10, rfl⟩⟩,
      fun _ => rfl, fun hc => absurd h (by omega)⟩
  · rw [if_neg (by omega), if_neg (by omega)]
    have hmod : (address + 0x10) % 256 = address + 0x10 := Nat.mod_eq_of_lt (by omega)
    rw [hmod]
    refine ⟨?_, fun hc => absurd hc h, fun _ => ?_, ?_, fun hc => absurd hc h, fun _ => ?_⟩
    · constructor
      · rintro ⟨a, ha⟩
        rcases hw : bus.writeByteData [] (address + 0x10) val with e | u <;>
          rw [hw] at ha <;> simp at ha
      · intro hc
        exact absurd hc h
    · rcases hw : bus.writeByteData [] (address + 0x10) val with e | u <;> rfl
    · constructor
      · rintro ⟨a, ha⟩
        rcases hw : bus.readByteData [] (address + 0x10) with e | u <;>
          rw [hw] at ha <;> simp at ha
      · intro hc
        exact absurd hc h
    · rcases hw : bus.readByteData [] (address + 0x10) with e | u <;> rfl

/-- Witness for C10 at address 0x20. -/
theorem pcf8583_ram_range_check_witness :
    (PCF8583Driver.WriteRAM zeroBus ⟨0, 0x10⟩ 0x20 7).2 =
      [.bus (.writeByteData 0x30 7)] ∧
    (PCF8583Driver.ReadRAM zeroBus ⟨0, 0x10⟩ 0x20).2 =
      [.bus (.readByteData 0x30)] := by
  have h := pcf8583_ram_range_check zeroBus ⟨0, 0x10⟩ 0x20 7 rfl (by decide)
  exact ⟨h.2.2.1 (by decide), h.2.2.2.2.2 (by decide)⟩

/-- Counterexample for C4 as stated: a call of `AnalogWrite` whose value
rescales to the cached `lastAnaOut` byte performs no bus transfer at all
(empty event trace), and a control-byte write with an unchanged control
byte is likewise suppressed. -/
theorem pcf8591_write_cache_cex :
    PCF8591Driver.AnalogWrite (pcf8591DefaultRescaleAO 0 3300) zeroBus ⟨0, 0⟩ 0 =
      (.ok (), ⟨0, 0⟩, []) ∧
    PCF8591Driver.writeCtrlByte zeroBus ⟨0, 0⟩ [] 0 = (.ok (), ⟨0, 0⟩, []) := by
  exact ⟨rfl, rfl⟩

/-- Claim C4 (amended): the PCF8591 driver caches the last written analog
byte and control byte: `AnalogWrite` performs its bus transfer exactly when
the rescaled byte differs from `lastAnaOut`, and `writeCtrlByte` performs
its transfer exactly when the control byte differs from `lastCtrlByte`;
when the transfer happens it is the full write of the new value. -/
theorem pcf8591_write_cache_characterization (rescaleAO : Int → Nat)
    (bus : Bus) (st : PCF8591State) (value : Int) (tr : List Event)
    (ctrlByte : Nat) :
    ((PCF8591Driver.AnalogWrite rescaleAO bus st value).2.2 = [] ↔
      rescaleAO value = st.lastAnaOut) ∧
    ((PCF8591Driver.AnalogWrite rescaleAO bus st value).2.2 ≠ [] →
      (PCF8591Driver.AnalogWrite rescaleAO bus st value).2.2 =
        [.bus (.writeByteData (st.lastCtrlByte ||| pcf8591ANAON) (rescaleAO value))]) ∧
    ((PCF8591Driver.writeCtrlByte bus st tr ctrlByte).2.2 = tr ↔
      st.lastCtrlByte = ctrlByte) ∧
    (st.lastCtrlByte ≠ ctrlByte →
      (PCF8591Driver.writeCtrlByte bus st tr ctrlByte).2.2 =
        tr ++ [.bus (.writeByte ctrlByte)]) := by
  have hne : ∀ (e : Event), ¬ (tr ++ [e] = tr) := by
    intro e he
    have := congrArg List.length he
    simp at this
  constructor
  · unfold PCF8591Driver.AnalogWrite
    by_cases h : st.lastAnaOut = rescaleAO value
    · rw [if_pos h]
      simp [h.symm]
    · rw [if_neg h]
      cases h2 : bus.writeByteData [] (st.lastCtrlByte ||| pcf8591ANAON) (rescaleAO value) with
      | error e => simpa using fun hh => h hh.symm
      | ok u => simpa using fun hh => h hh.symm
  constructor
  · unfold PCF8591Driver.AnalogWrite
    by_cases h : st.lastAnaOut = rescaleAO value
    · rw [if_pos h]
      simp
    · rw [if_neg h]
      cases h2 : bus.writeByteData [] (st.lastCtrlByte ||| pcf8591ANAON) (rescaleAO value) with
      | error e => simp
      | ok u => simp
  constructor
  · unfold PCF8591Driver.writeCtrlByte
    by_cases h : st.lastCtrlByte = ctrlByte
    · rw [if_neg (by simpa using h)]
      simp [h]
    · rw [if_pos h]
      cases h2 : bus.writeByte tr ctrlByte with
      | error e =>
        dsimp only
        exact ⟨fun hh => absurd hh (hne _), fun hh => absurd hh h⟩
      | ok u =>
        dsimp only
        exact ⟨fun hh => absurd hh (hne _), fun hh => absurd hh h⟩
  · intro h
    unfold PCF8591Driver.writeCtrlByte
    rw [if_pos h]
    cases h2 : bus.writeByte tr ctrlByte with
    | error e => rfl
    | ok u => rfl

/-- Witness for C4's amended characterization: with a stale cache the
transfer does happen and carries the new bytes. -/
theorem pcf8591_write_cache_characterization_witness :
    (PCF8591Driver.AnalogWrite (pcf8591DefaultRescaleAO 0 3300) zeroBus ⟨0, 5⟩ 0).2.2 =
      [.bus (.writeByteData (0 ||| pcf8591ANAON) (pcf8591DefaultRescaleAO 0 3300 0))] ∧
    (PCF8591Driver.writeCtrlByte zeroBus ⟨0, 5⟩ [] 0x41).2.2 =
      [] ++ [.bus (.writeByte 0x41)] := by
  have h := pcf8591_write_cache_characterization (pcf8591DefaultRescaleAO 0 3300)
    zeroBus ⟨0, 5⟩ 0 [] 0x41
  exact ⟨h.2.1 (by decide), h.2.2.2 (by decide)⟩

/-! ### PCA9501 / PCA953x helper lemmas -/

lemma shiftLeft_mod256_of_ge (pin : Nat) (h : 8 ≤ pin) : (1 <<< pin) % 256 = 0 := by
  rw [Nat.shiftLeft_eq, Nat.one_mul]
  have hdvd : (256 : Nat) ∣ 2 ^ pin := by
    have h8 : (2:Nat) ^ 8 ∣ 2 ^ pin := Nat.pow_dvd_pow 2 h
    simpa using h8
  omega

lemma pca9501_readGPIO_eval (bus : Bus) (pin c p n1 : Nat)
    (h1 : bus.readBytes [] 1 = .ok [c])
    (h2 : bus.writeBytes [.bus (.readBytes 1)] [setBitAtPos c pin] = .ok n1)
    (h3 : bus.readBytes [.bus (.readBytes 1),
      .bus (.writeBytes [setBitAtPos c pin])] 1 = .ok [p]) :
    PCA9501Driver.ReadGPIO bus pin =
      (.ok (if ((1 <<< pin) % 256) &&& p > 1 then 1 else ((1 <<< pin) % 256) &&& p),
        [.bus (.readBytes 1), .bus (.writeBytes [setBitAtPos c pin]),
          .bus (.readBytes 1)]) := by
  unfold PCA9501Driver.ReadGPIO
  rw [h1]
  simp only [List.getD_cons_zero]
  rw [if_neg (by simp), h2]
  dsimp only
  rw [h3]
  simp only [List.getD_cons_zero]
  rw [if_neg (by simp)]

lemma pca953x_readGPIO_eval (bus : Bus) (idx b n1 : Nat)
    (h1 : bus.writeBytes [] [pca953xRegInp &&& (255 ^^^ pca953xAiMask)] = .ok n1)
    (h2 : bus.readBytes [.bus (.writeBytes [pca953xRegInp &&& (255 ^^^ pca953xAiMask)])] 1 =
      .ok [b]) :
    PCA953xDriver.ReadGPIO bus idx =
      (.ok (if ((1 <<< idx) % 256) &&& b > 1 then 1 else ((1 <<< idx) % 256) &&& b),
        [.bus (.writeBytes [pca953xRegInp &&& (255 ^^^ pca953xAiMask)]),
          .bus (.readBytes 1)]) := by
  unfold PCA953xDriver.ReadGPIO
  rw [h1]
  dsimp only
  rw [h2]
  simp only [List.getD_cons_zero]
  rw [if_neg (by simp), if_neg (by simp)]

/-- Claim C5: `PCA9501Driver.WriteGPIO` performs exactly the sequence read
CTRL, write CTRL with bit `pin` cleared, read port, write port with bit
`pin` cleared (`val = 0`) or set (`val ≠ 0`); a failing bus operation is
returned as that error with no further bus operation performed. -/
theorem pca9501_writeGPIO_sequence (bus : Bus) (pin val : Nat) :
    (∀ e, bus.readBytes [] 1 = .error e →
      PCA9501Driver.WriteGPIO bus pin val =
        (.error (.busError e), [.bus (.readBytes 1)])) ∧
    (∀ c e, bus.readBytes [] 1 = .ok [c] →
      bus.writeBytes [.bus (.readBytes 1)] [clearBitAtPos c pin] = .error e →
      PCA9501Driver.WriteGPIO bus pin val =
        (.error (.busError e),
          [.bus (.readBytes 1), .bus (.writeBytes [clearBitAtPos c pin])])) ∧
    (∀ c e n1, bus.readBytes [] 1 = .ok [c] →
      bus.writeBytes [.bus (.readBytes 1)] [clearBitAtPos c pin] = .ok n1 →
      bus.readBytes [.bus (.readBytes 1),
        .bus (.writeBytes [clearBitAtPos c pin])] 1 = .error e →
      PCA9501Driver.WriteGPIO bus pin val =
        (.error (.busError e),
          [.bus (.readBytes 1), .bus (.writeBytes [clearBitAtPos c pin]),
            .bus (.readBytes 1)])) ∧
    (∀ c p e n1, bus.readBytes [] 1 = .ok [c] →
      bus.writeBytes [.bus (.readBytes 1)] [clearBitAtPos c pin] = .ok n1 →
      bus.readBytes [.bus (.readBytes 1),
        .bus (.writeBytes [clearBitAtPos c pin])] 1 = .ok [p] →
      bus.writeBytes [.bus (.readBytes 1), .bus (.writeBytes [clearBitAtPos c pin]),
        .bus (.readBytes 1)]
        [if val = 0 then clearBitAtPos p pin else setBitAtPos p pin] = .error e →
      PCA9501Driver.WriteGPIO bus pin val =
        (.error (.busError e),
          [.bus (.readBytes 1), .bus (.writeBytes [clearBitAtPos c pin]),
            .bus (.readBytes 1),
            .bus (.writeBytes
              [if val = 0 then clearBitAtPos p pin else setBitAtPos p pin])])) ∧
    (∀ c p n1 n2, bus.readBytes [] 1 = .ok [c] →
      bus.writeBytes [.bus (.readBytes 1)] [clearBitAtPos c pin] = .ok n1 →
      bus.readBytes [.bus (.readBytes 1),
        .bus (.writeBytes [clearBitAtPos c pin])] 1 = .ok [p] →
      bus.writeBytes [.bus (.readBytes 1), .bus (.writeBytes [clearBitAtPos c pin]),
        .bus (.readBytes 1)]
        [if val = 0 then clearBitAtPos p pin else setBitAtPos p pin] = .ok n2 →
      PCA9501Driver.WriteGPIO bus pin val =
        (.ok (),
          [.bus (.readBytes 1), .bus (.writeBytes [clearBitAtPos c pin]),
            .bus (.readBytes 1),
            .bus (.writeBytes
              [if val = 0 then clearBitAtPos p pin else setBitAtPos p pin])])) := by
  refine ⟨fun e h1 => ?_, fun c e h1 h2 => ?_, fun c e n1 h1 h2 h3 => ?_,
    fun c p e n1 h1 h2 h3 h4 => ?_, fun c p n1 n2 h1 h2 h3 h4 => ?_⟩
  · unfold PCA9501Driver.WriteGPIO
    rw [h1]
  · unfold PCA9501Driver.WriteGPIO
    rw [h1]
    simp only [List.getD_cons_zero]
    rw [if_neg (by simp), h2]
  · unfold PCA9501Driver.WriteGPIO
    rw [h1]
    simp only [List.getD_cons_zero]
    rw [if_neg (by simp), h2]
    dsimp only
    rw [h3]
  · unfold PCA9501Driver.WriteGPIO
    rw [h1]
    simp only [List.getD_cons_zero]
    rw [if_neg (by simp), h2]
    dsimp only
    rw [h3]
    simp only [List.getD_cons_zero]
    rw [if_neg (by simp), h4]
  · unfold PCA9501Driver.WriteGPIO
    rw [h1]
    simp only [List.getD_cons_zero]
    rw [if_neg (by simp), h2]
    dsimp only
    rw [h3]
    simp only [List.getD_cons_zero]
    rw [if_neg (by simp), h4]

/-- Witness for C5 on a device that answers 0xFF for the CTRL read and
0x0F for the port read. -/
theorem pca9501_writeGPIO_sequence_witness :
    PCA9501Driver.WriteGPIO pca9501TestBus 3 1 =
      (.ok (),
        [.bus (.readBytes 1), .bus (.writeBytes [clearBitAtPos 0xff 3]),
          .bus (.readBytes 1),
          .bus (.writeBytes
            [if (1:Nat) = 0 then clearBitAtPos 0x0f 3 else setBitAtPos 0x0f 3])]) :=
  (pca9501_writeGPIO_sequence pca9501TestBus 3 1).2.2.2.2 0xff 0x0f 1 1
    rfl rfl rfl rfl

/-- Claim C9: when the bus operations succeed, `PCA9501Driver.ReadGPIO`
and `PCA953xDriver.ReadGPIO` return only 0 or 1, for every pin argument
and every port byte; for pins 8 and larger the 8-bit shift masks the port
value to zero, so the call returns 0 with no error instead of rejecting
the pin. -/
theorem readGPIO_bit_result (bus : Bus) (pin idx c p b n1 n2 : Nat)
    (h1 : bus.readBytes [] 1 = .ok [c])
    (h2 : bus.writeBytes [.bus (.readBytes 1)] [setBitAtPos c pin] = .ok n1)
    (h3 : bus.readBytes [.bus (.readBytes 1),
      .bus (.writeBytes [setBitAtPos c pin])] 1 = .ok [p])
    (h4 : bus.writeBytes [] [pca953xRegInp &&& (255 ^^^ pca953xAiMask)] = .ok n2)
    (h5 : bus.readBytes [.bus (.writeBytes [pca953xRegInp &&& (255 ^^^ pca953xAiMask)])] 1 =
      .ok [b]) :
    ((PCA9501Driver.ReadGPIO bus pin).1 = .ok 0 ∨
      (PCA9501Driver.ReadGPIO bus pin).1 = .ok 1) ∧
    (8 ≤ pin → (PCA9501Driver.ReadGPIO bus pin).1 = .ok 0) ∧
    ((PCA953xDriver.ReadGPIO bus idx).1 = .ok 0 ∨
      (PCA953xDriver.ReadGPIO bus idx).1 = .ok 1) ∧
    (8 ≤ idx → (PCA953xDriver.ReadGPIO bus idx).1 = .ok 0) := by
  rw [pca9501_readGPIO_eval bus pin c p n1 h1 h2 h3,
    pca953x_readGPIO_eval bus idx b n2 h4 h5]
  refine ⟨?_, fun h => ?_, ?_, fun h => ?_⟩
  · by_cases hv : ((1 <<< pin) % 256) &&& p > 1
    · right
      simp [hv]
    · have : ((1 <<< pin) % 256) &&& p = 0 ∨ ((1 <<< pin) % 256) &&& p = 1 := by omega
      rcases this with h0 | h0 <;> simp [hv, h0]
  · rw [shiftLeft_mod256_of_ge pin h]
    simp
  · by_cases hv : ((1 <<< idx) % 256) &&& b > 1
    · right
      simp [hv]
    · have : ((1 <<< idx) % 256) &&& b = 0 ∨ ((1 <<< idx) % 256) &&& b = 1 := by omega
      rcases this with h0 | h0 <;> simp [hv, h0]
  · rw [shiftLeft_mod256_of_ge idx h]
    simp

/-- Witness for C9 at pin 9 (out of the 0-7 range). -/
theorem readGPIO_bit_result_witness :
    (PCA9501Driver.ReadGPIO pca9501TestBus 9).1 = .ok 0 ∧
    (PCA953xDriver.ReadGPIO pca9501TestBus 9).1 = .ok 0 := by
  have h := readGPIO_bit_result pca9501TestBus 9 9 0xff 0x0f 0x0f 1 1
    rfl rfl rfl rfl rfl
  exact ⟨h.2.1 (by decide), h.2.2.2 (by decide)⟩

/-- Claim C6: `GetConnection(address, bus)` errors exactly when the bus
number lies outside 6..9 (assuming the sysfs device can be opened), for an
in-range bus it returns a connection wrapping the device cached for that
bus together with the requested chip address, and `GetDefaultBus` is 6. -/
theorem mcp2221_get_connection_spec (newDev : Int → Except Nat Nat)
    (st : MCP2221State) (address busNr : Int) (d : Nat)
    (hnew : newDev busNr = .ok d) :
    ((MCP2221Adaptor.GetConnection newDev st address busNr).2.1 = none ↔
      6 ≤ busNr ∧ busNr ≤ 9) ∧
    (6 ≤ busNr → busNr ≤ 9 →
      ∃ dev, (MCP2221Adaptor.GetConnection newDev st address busNr).1 =
          some ⟨some dev, address⟩ ∧
        (MCP2221Adaptor.GetConnection newDev st address busNr).2.2.i2cBuses busNr =
          some dev) ∧
    MCP2221Adaptor.GetDefaultBus = 6 := by
  unfold MCP2221Adaptor.GetConnection
  by_cases hrange : busNr < mcp2221MinBus ∨ busNr > 9
  · rw [if_pos hrange]
    refine ⟨⟨fun h => by simp at h, fun h => ?_⟩, fun h6 h9 => ?_, rfl⟩
    · exfalso
      unfold mcp2221MinBus at hrange
      omega
    · exfalso
      unfold mcp2221MinBus at hrange
      omega
  · rw [if_neg hrange]
    have hin : 6 ≤ busNr ∧ busNr ≤ 9 := by
      unfold mcp2221MinBus at hrange
      omega
    cases hc : st.i2cBuses busNr with
    | some dev =>
      exact ⟨by simp [hin], fun _ _ => ⟨dev, rfl, hc⟩, rfl⟩
    | none =>
      rw [hnew]
      exact ⟨by simp [hin], fun _ _ => ⟨d, rfl, by simp⟩, rfl⟩

/-- Witness for C6 at address 0x50 on bus 7 with an empty device cache. -/
theorem mcp2221_get_connection_spec_witness :
    ∃ dev, (MCP2221Adaptor.GetConnection (fun _ => .ok 42) ⟨fun _ => none⟩ 0x50 7).1 =
        some ⟨some dev, 0x50⟩ ∧
      (MCP2221Adaptor.GetConnection (fun _ => .ok 42) ⟨fun _ => none⟩ 0x50 7).2.2.i2cBuses 7 =
        some dev :=
  (mcp2221_get_connection_spec (fun _ => .ok 42) ⟨fun _ => none⟩ 0x50 7 42 rfl).2.1
    (by decide) (by decide)

/-! ### PCF8591 rescale helper lemmas -/

lemma goInt64_eq_self (i : Int) (h1 : -2 ^ 63 ≤ i) (h2 : i < 2 ^ 63) :
    goInt64 i = i := by
  unfold goInt64
  rw [Int.emod_eq_of_lt (by omega) (by omega)]
  omega

lemma pcf8591Rescale_mem (input fromMin fromMax toMin toMax : Int)
    (hf : fromMin < fromMax) (ht : toMin ≤ toMax)
    (hto1 : -2 ^ 63 ≤ toMin) (hto2 : toMax < 2 ^ 63)
    (hden : fromMax - fromMin < 2 ^ 63)
    (hpr : (fromMax - fromMin) * (toMax - toMin) < 2 ^ 63) :
    toMin ≤ pcf8591Rescale input fromMin fromMax toMin toMax ∧
      pcf8591Rescale input fromMin fromMax toMin toMax ≤ toMax := by
  unfold pcf8591Rescale
  dsimp only
  set i1 := if input < fromMin then fromMin else input with hi1
  set i2 := if i1 > fromMax then fromMax else i1 with hi2
  have hlo : fromMin ≤ i2 := by
    rw [hi2, hi1]
    split
    · omega
    · split <;> omega
  have hhi : i2 ≤ fromMax := by
    rw [hi2]
    split <;> omega
  have hA0 : 0 ≤ i2 - fromMin := by omega
  have hT : 0 ≤ toMax - toMin := by omega
  have hTbound : toMax - toMin < 2 ^ 63 := by
    have := le_mul_of_one_le_left hT (show (1:Int) ≤ fromMax - fromMin by omega)
    omega
  have hprodle : (i2 - fromMin) * (toMax - toMin) ≤
      (fromMax - fromMin) * (toMax - toMin) :=
    mul_le_mul_of_nonneg_right (by omega) hT
  have hprod0 : 0 ≤ (i2 - fromMin) * (toMax - toMin) := mul_nonneg hA0 hT
  rw [goInt64_eq_self (i2 - fromMin) (by omega) (by omega),
    goInt64_eq_self (toMax - toMin) (by omega) (by omega),
    goInt64_eq_self ((i2 - fromMin) * (toMax - toMin)) (by omega) (by omega),
    goInt64_eq_self (fromMax - fromMin) (by omega) (by omega)]
  have htd : ((i2 - fromMin) * (toMax - toMin)).tdiv (fromMax - fromMin) =
      ((i2 - fromMin) * (toMax - toMin)) / (fromMax - fromMin) :=
    Int.tdiv_eq_ediv hprod0 (by omega)
  rw [htd]
  set q := ((i2 - fromMin) * (toMax - toMin)) / (fromMax - fromMin) with hqdef
  have hq0 : 0 ≤ q := Int.ediv_nonneg hprod0 (by omega)
  have hqle : q ≤ toMax - toMin := by
    have h2 : ((i2 - fromMin) * (toMax - toMin)) / (fromMax - fromMin) ≤
        ((fromMax - fromMin) * (toMax - toMin)) / (fromMax - fromMin) :=
      Int.ediv_le_ediv (by omega) hprodle
    rw [Int.mul_ediv_cancel_left _ (by omega)] at h2
    omega
  rw [goInt64_eq_self q (by omega) (by omega),
    goInt64_eq_self (q + toMin) (by omega) (by omega)]
  omega

lemma pcf8591Rescale_mono (a b fromMin fromMax toMin toMax : Int)
    (hf : fromMin < fromMax) (ht : toMin ≤ toMax)
    (hto1 : -2 ^ 63 ≤ toMin) (hto2 : toMax < 2 ^ 63)
    (hden : fromMax - fromMin < 2 ^ 63)
    (hpr : (fromMax - fromMin) * (toMax - toMin) < 2 ^ 63)
    (hab : a ≤ b) :
    pcf8591Rescale a fromMin fromMax toMin toMax ≤
      pcf8591Rescale b fromMin fromMax toMin toMax := by
  unfold pcf8591Rescale
  dsimp only
  set a2 := if (if a < fromMin then fromMin else a) > fromMax then fromMax
    else if a < fromMin then fromMin else a with ha2
  set b2 := if (if b < fromMin then fromMin else b) > fromMax then fromMax
    else if b < fromMin then fromMin else b with hb2
  have hcl : a2 ≤ b2 ∧ fromMin ≤ a2 ∧ b2 ≤ fromMax := by
    rw [ha2, hb2]
    split
    · split
      · omega
      · split <;> omega
    · split
      · split <;> split <;> omega
      · split <;> split <;> omega
  have hT : 0 ≤ toMax - toMin := by omega
  have hTbound : toMax - toMin < 2 ^ 63 := by
    have := le_mul_of_one_le_left hT (show (1:Int) ≤ fromMax - fromMin by omega)
    omega
  have ha0 : 0 ≤ a2 - fromMin := by omega
  have hb0 : 0 ≤ b2 - fromMin := by omega
  have haprodle : (a2 - fromMin) * (toMax - toMin) ≤
      (fromMax - fromMin) * (toMax - toMin) :=
    mul_le_mul_of_nonneg_right (by omega) hT
  have hbprodle : (b2 - fromMin) * (toMax - toMin) ≤
      (fromMax - fromMin) * (toMax - toMin) :=
    mul_le_mul_of_nonneg_right (by omega) hT
  have haprod0 : 0 ≤ (a2 - fromMin) * (toMax - toMin) := mul_nonneg ha0 hT
  have hbprod0 : 0 ≤ (b2 - fromMin) * (toMax - toMin) := mul_nonneg hb0 hT
  rw [goInt64_eq_self (a2 - fromMin) (by omega) (by omega),
    goInt64_eq_self (b2 - fromMin) (by omega) (by omega),
    goInt64_eq_self (toMax - toMin) (by omega) (by omega),
    goInt64_eq_self ((a2 - fromMin) * (toMax - toMin)) (by omega) (by omega),
    goInt64_eq_self ((b2 - fromMin) * (toMax - toMin)) (by omega) (by omega),
    goInt64_eq_self (fromMax - fromMin) (by omega) (by omega)]
  rw [Int.tdiv_eq_ediv haprod0 (by omega), Int.tdiv_eq_ediv hbprod0 (by omega)]
  set qa := ((a2 - fromMin) * (toMax - toMin)) / (fromMax - fromMin) with hqadef
  set qb := ((b2 - fromMin) * (toMax - toMin)) / (fromMax - fromMin) with hqbdef
  have hmul : (a2 - fromMin) * (toMax - toMin) ≤ (b2 - fromMin) * (toMax - toMin) :=
    mul_le_mul_of_nonneg_right (by omega) hT
  have hmono : qa ≤ qb :=
    Int.ediv_le_ediv (show (0:Int) < fromMax - fromMin by omega) hmul
  have hqa0 : 0 ≤ qa := Int.ediv_nonneg haprod0 (by omega)
  have hqble : qb ≤ toMax - toMin := by
    have h2 := Int.ediv_le_ediv (show (0:Int) < fromMax - fromMin by omega) hbprodle
    rw [Int.mul_ediv_cancel_left _ (by omega)] at h2
    omega
  rw [goInt64_eq_self qa (by omega) (by omega),
    goInt64_eq_self qb (by omega) (by omega),
    goInt64_eq_self (qa + toMin) (by omega) (by omega),
    goInt64_eq_self (qb + toMin) (by omega) (by omega)]
  omega

lemma pcf8591DefaultRescaleAI_mem (toMin toMax : Nat → Int)
    (h : ∀ ch, toMin ch ≤ toMax ch)
    (hlo : ∀ ch, -2 ^ 63 ≤ toMin ch) (hhi : ∀ ch, toMax ch < 2 ^ 63)
    (hpr : ∀ ch, 255 * (toMax ch - toMin ch) < 2 ^ 63)
    (value : Nat) (mc : Pcf8591ModeChan) :
    toMin mc.channel ≤ pcf8591DefaultRescaleAI toMin toMax value mc ∧
      pcf8591DefaultRescaleAI toMin toMax value mc ≤ toMax mc.channel := by
  unfold pcf8591DefaultRescaleAI
  cases hd : mc.pcf8591IsDiff with
  | true =>
    simp [hd]
    exact pcf8591Rescale_mem _ _ _ _ _ (by norm_num) (h mc.channel)
      (hlo mc.channel) (hhi mc.channel)
      (by norm_num)
      (by have := hpr mc.channel; omega)
  | false =>
    simp [hd]
    exact pcf8591Rescale_mem _ _ _ _ _ (by norm_num) (h mc.channel)
      (hlo mc.channel) (hhi mc.channel)
      (by norm_num)
      (by have := hpr mc.channel; omega)

/-- Counterexample for C8 as stated: with the in-range parameters
`fromMin = 0 < fromMax = 2` and `toMin = 0 ≤ toMax = 2^62`, the wrapped
64-bit multiplication `2 * 2^62` overflows to `-2^63`, so
`pcf8591Rescale 2 0 2 0 (2^62)` returns `-2^62`, far below `toMin`. -/
theorem pcf8591_rescale_overflow_cex :
    pcf8591Rescale 2 0 2 0 (2 ^ 62) = -(2 ^ 62) ∧
    ¬ ((0 : Int) ≤ pcf8591Rescale 2 0 2 0 (2 ^ 62)) := by
  constructor
  · decide
  · decide

/-- Claim C8 (amended): `pcf8591Rescale` clamps and then maps linearly
with Go's wrapping 64-bit arithmetic; whenever the interpolation stays
inside int64 (`fromMin < fromMax`, `toMin ≤ toMax`, `toMin`/`toMax` in
int64 range, `fromMax - fromMin < 2^63` and
`(fromMax - fromMin) * (toMax - toMin) < 2^63`) its result lies in
`[toMin, toMax]` and is monotone in the input; the default `rescaleAO`
closure (0..3300 to 0..255, which never overflows) stays in 0..255 for
every int input, so its byte conversion never truncates; and a successful
`AnalogRead` with the default input rescaler returns a value inside the
configured `[toMin, toMax]` interval of the addressed channel whenever
each channel's configured range satisfies the corresponding no-overflow
bound `255 * (toMax - toMin) < 2^63`. -/
theorem pcf8591_rescale_spec :
    (∀ input fromMin fromMax toMin toMax : Int,
      fromMin < fromMax → toMin ≤ toMax →
      -2 ^ 63 ≤ toMin → toMax < 2 ^ 63 →
      fromMax - fromMin < 2 ^ 63 →
      (fromMax - fromMin) * (toMax - toMin) < 2 ^ 63 →
      toMin ≤ pcf8591Rescale input fromMin fromMax toMin toMax ∧
        pcf8591Rescale input fromMin fromMax toMin toMax ≤ toMax) ∧
    (∀ a b fromMin fromMax toMin toMax : Int,
      fromMin < fromMax → toMin ≤ toMax →
      -2 ^ 63 ≤ toMin → toMax < 2 ^ 63 →
      fromMax - fromMin < 2 ^ 63 →
      (fromMax - fromMin) * (toMax - toMin) < 2 ^ 63 →
      a ≤ b →
      pcf8591Rescale a fromMin fromMax toMin toMax ≤
        pcf8591Rescale b fromMin fromMax toMin toMax) ∧
    (∀ mv : Int,
      ((pcf8591DefaultRescaleAO 0 3300 mv : Nat) : Int) =
        pcf8591Rescale mv 0 3300 0 255 ∧
      pcf8591DefaultRescaleAO 0 3300 mv ≤ 255) ∧
    (∀ (toMin toMax : Nat → Int), (∀ ch, toMin ch ≤ toMax ch) →
      (∀ ch, -2 ^ 63 ≤ toMin ch) → (∀ ch, toMax ch < 2 ^ 63) →
      (∀ ch, 255 * (toMax ch - toMin ch) < 2 ^ 63) →
      ∀ (addSkip : Nat) (bus : Bus) (st st' : PCF8591State) (desc : String)
        (v : Int) (tr : List Event),
      PCF8591Driver.AnalogRead (pcf8591DefaultRescaleAI toMin toMax) addSkip
        bus st desc = (.ok v, st', tr) →
      ∃ mc, pcf8591ModeMap desc = some mc ∧
        toMin mc.channel ≤ v ∧ v ≤ toMax mc.channel) := by
  refine ⟨fun input fromMin fromMax toMin toMax hf ht hto1 hto2 hden hpr =>
      pcf8591Rescale_mem input fromMin fromMax toMin toMax hf ht hto1 hto2 hden hpr,
    fun a b fromMin fromMax toMin toMax hf ht hto1 hto2 hden hpr hab =>
      pcf8591Rescale_mono a b fromMin fromMax toMin toMax hf ht hto1 hto2 hden hpr hab,
    fun mv => ?_,
    fun toMin toMax hmm hmlo hmhi hmpr addSkip bus st st' desc v tr heq => ?_⟩
  · have hb := pcf8591Rescale_mem mv 0 3300 0 255 (by norm_num) (by norm_num)
      (by norm_num) (by norm_num) (by norm_num) (by norm_num)
    have hr : pcf8591Rescale mv 0 3300 0 255 % 256 = pcf8591Rescale mv 0 3300 0 255 :=
      Int.emod_eq_of_lt (by omega) (by omega)
    unfold pcf8591DefaultRescaleAO goUInt8
    rw [hr]
    constructor
    · rw [Int.toNat_of_nonneg (by omega)]
    · omega
  · unfold PCF8591Driver.AnalogRead at heq
    cases hmc : pcf8591ModeMap desc with
    | none =>
      rw [hmc] at heq
      simp at heq
    | some mc =>
      rw [hmc] at heq
      dsimp only at heq
      refine ⟨mc, rfl, ?_⟩
      rcases hwc : PCF8591Driver.writeCtrlByte bus st []
          (st.lastCtrlByte &&& (255 ^^^ pcf8591ADMASK) ||| mc.mode |||
            (mc.channel &&& (255 ^^^ pcf8591AION))) with ⟨res1, st1, tr1⟩
      rw [hwc] at heq
      cases res1 with
      | error e => simp at heq
      | ok u =>
        dsimp only at heq
        cases hrb : bus.readBytes tr1 (1 + addSkip) with
        | error e =>
          rw [hrb] at heq
          simp at heq
        | ok bs =>
          rw [hrb] at heq
          dsimp only at heq
          by_cases hlen : bs.length ≠ 1 + addSkip
          · rw [if_pos hlen] at heq
            simp at heq
          · rw [if_neg hlen] at heq
            cases hrbyte : bus.readByte (tr1 ++ [.bus (.readBytes (1 + addSkip))]) with
            | error e =>
              rw [hrbyte] at heq
              simp at heq
            | ok uval =>
              rw [hrbyte] at heq
              dsimp only at heq
              have hv : v = pcf8591DefaultRescaleAI toMin toMax uval mc := by
                have := congrArg Prod.fst heq
                simpa using this.symm
              rw [hv]
              exact pcf8591DefaultRescaleAI_mem toMin toMax hmm hmlo hmhi hmpr uval mc

/-- Witness for C8: a concrete read of channel `"s.1"` with the default
0..3300 scaling on a device answering zeros. -/
theorem pcf8591_rescale_spec_witness :
    (0 ≤ pcf8591Rescale 5000 0 3300 0 255 ∧ pcf8591Rescale 5000 0 3300 0 255 ≤ 255) ∧
    pcf8591Rescale 100 0 3300 0 255 ≤ pcf8591Rescale 200 0 3300 0 255 ∧
    pcf8591DefaultRescaleAO 0 3300 1650 ≤ 255 ∧
    (∃ mc, pcf8591ModeMap "s.1" = some mc ∧
      (fun _ : Nat => (0 : Int)) mc.channel ≤ 0 ∧
      (0 : Int) ≤ (fun _ : Nat => (3300 : Int)) mc.channel) := by
  refine ⟨pcf8591_rescale_spec.1 5000 0 3300 0 255 (by norm_num) (by norm_num)
      (by norm_num) (by norm_num) (by norm_num) (by norm_num),
    pcf8591_rescale_spec.2.1 100 200 0 3300 0 255 (by norm_num) (by norm_num)
      (by norm_num) (by norm_num) (by norm_num) (by norm_num) (by norm_num),
    (pcf8591_rescale_spec.2.2.1 1650).2,
    pcf8591_rescale_spec.2.2.2 (fun _ => 0) (fun _ => 3300)
      (fun ch => by norm_num) (fun ch => by norm_num) (fun ch => by norm_num)
      (fun ch => by norm_num) 2 zeroBus ⟨0, 0⟩ ⟨1, 0⟩ "s.1" 0
      [.bus (.writeByte 1), .bus (.readBytes 3), .bus .readByte] rfl⟩

end Gobot
